import Mathlib

/-!
Shallow embedding of the COSD HTML ingestion pipeline
(src/main.py, src/utils/cosd_scraper.py) and proofs about it.

Python strings are modelled as lists of code points (Str); Python
exceptions as an explicit error type threaded through Except.
Each definition mirrors one construct of the source; deviations are
noted in the doc comment of the definition concerned.
-/

/-- A Python string: a finite sequence of code points. -/
abbrev Str := List Char

/-- Literal helper: view a Lean string literal as a Python string value. -/
def pys (s : String) : Str := s.data

/-- Kinds of Python exceptions that the modelled code can raise. -/
inductive PyErr where
  /-- Missing dictionary key. -/
  | keyError
  /-- Sequence index out of range. -/
  | indexError
  /-- Operation applied to a value of the wrong runtime type
      (includes subscripting None). -/
  | typeError
  /-- Invalid value, e.g. int() or strptime() on a malformed string,
      or a pandas length mismatch. -/
  | valueError
  /-- Attribute access on an object lacking it (includes method calls
      on None). -/
  | attributeError
  /-- Local variable referenced before assignment. -/
  | unboundLocal
  /-- An explicit `raise Exception(...)` in the source. -/
  | raisedException
  deriving DecidableEq

/-- Turn an optional value into an Except, raising the given error on none. -/
def exceptOfOption (e : PyErr) : Option α → Except PyErr α
  | some a => .ok a
  | none => .error e

/-- Python's str.split with a single-character separator:
    auxiliary accumulator form. -/
def splitChAux (sep : Char) : Str → Str → List Str
  | [], acc => [acc.reverse]
  | c :: cs, acc =>
    if c = sep then acc.reverse :: splitChAux sep cs []
    else splitChAux sep cs (c :: acc)

/-- Python's s.split(sep) for a one-character separator sep. -/
def splitCh (sep : Char) (s : Str) : List Str := splitChAux sep s []

/-- Python's str.split with a multi-character separator; fuel-indexed so the
    recursion is structural.  With fuel at least the length of the string it
    computes the left-to-right non-overlapping split. -/
def pySplitAux (pat : Str) : Nat → Str → Str → List Str
  | 0, s, acc => [acc.reverse ++ s]
  | _ + 1, [], acc => [acc.reverse]
  | fuel + 1, c :: cs, acc =>
    if pat.isPrefixOf (c :: cs) then
      acc.reverse :: pySplitAux pat fuel ((c :: cs).drop pat.length) []
    else pySplitAux pat fuel cs (c :: acc)

/-- Python's s.split(pat) for a non-empty separator pat. -/
def pySplit (pat : Str) (s : Str) : List Str := pySplitAux pat s.length s []

/-- Python's str.replace: fuel-indexed left-to-right non-overlapping
    replacement of pat by rep. -/
def pyReplaceAux (pat rep : Str) : Nat → Str → Str
  | 0, s => s
  | _ + 1, [] => []
  | fuel + 1, c :: cs =>
    if pat.isPrefixOf (c :: cs) then
      rep ++ pyReplaceAux pat rep fuel ((c :: cs).drop pat.length)
    else c :: pyReplaceAux pat rep fuel cs

/-- Python's s.replace(pat, rep) for a non-empty pattern pat. -/
def pyReplace (pat rep s : Str) : Str := pyReplaceAux pat rep s.length s

/-- Python's str.upper, modelled per code point. -/
def pyUpper (s : Str) : Str := s.map Char.toUpper

/-- Python's str.strip(): drop whitespace from both ends. -/
def pyStrip (s : Str) : Str :=
  ((s.dropWhile Char.isWhitespace).reverse.dropWhile Char.isWhitespace).reverse

/-- Python's substring containment test, pat in s. -/
def pyContains (pat s : Str) : Bool := s.tails.any (fun t => pat.isPrefixOf t)

/-- A calendar date as produced by datetime.date. -/
structure Date where
  year : Nat
  month : Nat
  day : Nat
  deriving DecidableEq

/-- Digits of a numeral string as a number. -/
def strToNat (s : Str) : Nat := s.foldl (fun a c => 10 * a + (c.toNat - '0'.toNat)) 0

/-- Models datetime.strptime(year + "_" + month + "_01", "%Y_%m_%d").date()
    from file_name_metadata: the year must be 1 to 4 digits with value at
    least 1, the month 1 or 2 digits with value 1 to 12; anything else
    raises ValueError.  The day is the literal 01. -/
def pyStrptimeYMD (y m : Str) : Except PyErr Date :=
  if y ≠ [] ∧ y.all Char.isDigit ∧ y.length ≤ 4 ∧ 1 ≤ strToNat y ∧
     m ≠ [] ∧ m.all Char.isDigit ∧ m.length ≤ 2 ∧
     1 ≤ strToNat m ∧ strToNat m ≤ 12 then
    .ok ⟨strToNat y, strToNat m, 1⟩
  else .error .valueError

/-- cosd_scraper.file_name_metadata: derive (date, org_code, org_name) from a
    file name of the convention YEAR_MONTH_ORGCODE_ORGNAME[_FIX].html. -/
def file_name_metadata (file_name : Str) : Except PyErr (Date × Str × Str) := do
  let fn := pyReplace (pys "_FIX") [] file_name
  let base := (pySplit (pys ".html") fn).headD []
  let parts := splitCh '_' base
  let meta_year ← exceptOfOption .indexError (parts.get? 0)
  let meta_month ← exceptOfOption .indexError (parts.get? 1)
  let meta_date ← pyStrptimeYMD meta_year meta_month
  let meta_org_code ← exceptOfOption .indexError (parts.get? 2)
  let meta_org_name := List.intercalate (pys " ") (parts.drop 3)
  .ok (meta_date, meta_org_code, meta_org_name)

/-- The column-name normalization of extract_overall_ranking_data:
    x.upper().replace(" ", "_").replace("(%)", "PER"). -/
def normalize_col (x : Str) : Str :=
  pyReplace (pys "(%)") (pys "PER") (pyReplace (pys " ") (pys "_") (pyUpper x))


/-- A JSON value as produced by json.loads, object fields in document order.
    Numbers are opaque to the pipeline and carried as integers. -/
inductive JVal where
  | null
  | boolean (b : Bool)
  | str (s : Str)
  | num (n : Int)
  | arr (elems : List JVal)
  | obj (fields : List (Str × JVal))

/-- First binding of a key in a JSON object's field list. -/
def jLookup (k : Str) : List (Str × JVal) → Option JVal
  | [] => none
  | (k', v) :: rest => if k' = k then some v else jLookup k rest

/-- Python subscript d[k] on a decoded JSON value: KeyError when the key is
    absent, TypeError when the value is not an object. -/
def jGet (k : Str) : JVal → Except PyErr JVal
  | .obj fields => exceptOfOption .keyError (jLookup k fields)
  | _ => .error .typeError

/-- Expect a JSON array (Python list indexing or iteration on the value). -/
def jArr : JVal → Except PyErr (List JVal)
  | .arr l => .ok l
  | _ => .error .typeError

/-- Expect a JSON string (the value is subsequently used with string
    methods, which fail on any other runtime type). -/
def jStr : JVal → Except PyErr Str
  | .str s => .ok s
  | _ => .error .typeError

/-- Python equality comparison of a decoded JSON value with a string literal:
    defined on every runtime type, true only for the equal string. -/
def jEqStr (j : JVal) (s : Str) : Bool :=
  match j with
  | .str t => t == s
  | _ => false

/-- Python's k in d.keys(): requires a dict, AttributeError otherwise. -/
def jHasKey (k : Str) : JVal → Except PyErr Bool
  | .obj fields => .ok (jLookup k fields).isSome
  | _ => .error .attributeError

/-- A cell of a pandas DataFrame in this pipeline: a value decoded from
    JSON, or a date or timestamp stamped on afterwards. -/
inductive Cell where
  | j (v : JVal)
  | date (d : Date)
  | timestamp

/-- A pandas DataFrame, modelled as its ordered list of named columns. -/
structure DF where
  cols : List (Str × List Cell)

/-- Number of rows: the length of the first column (0 when there are no
    columns); the frames built by this pipeline are rectangular. -/
def DF.nrows (df : DF) : Nat := ((df.cols.head?).map (fun c => c.2.length)).getD 0

/-- Column names in order. -/
def DF.colNames (df : DF) : List Str := df.cols.map (fun c => c.1)

/-- pandas df[name] = scalar: broadcast over all rows; replaces the column
    in place when present, else appends it as the last column. -/
def DF.setCol (df : DF) (name : Str) (v : Cell) : DF :=
  if df.cols.any (fun c => c.1 == name) then
    ⟨df.cols.map (fun c => if c.1 == name then (name, List.replicate df.nrows v) else c)⟩
  else ⟨df.cols ++ [(name, List.replicate df.nrows v)]⟩

/-- Values of a named column, if present. -/
def DF.getCol (df : DF) (name : Str) : Option (List Cell) :=
  (df.cols.find? (fun c => c.1 == name)).map (fun c => c.2)

/-- Length of a JSON array, none for scalars: the array-detection used by
    the pandas dict constructor. -/
def jArrLen : JVal → Option Nat
  | .arr l => some l.length
  | _ => none

/-- A dict entry as a column of given length: an array gives its elements,
    a scalar is broadcast. -/
def jBroadcast (L : Nat) : JVal → List Cell
  | .arr l => l.map Cell.j
  | v => List.replicate L (Cell.j v)

/-- pandas pd.DataFrame(dict): array-valued entries must all share one
    length (ValueError otherwise), scalar entries are broadcast to that
    length; a dict of only scalars raises ValueError. -/
def pdDataFrame (entries : List (Str × JVal)) : Except PyErr DF :=
  match entries.filterMap (fun e => jArrLen e.2) with
  | [] => .error .valueError
  | L :: rest =>
    if rest.all (fun n => n = L) then
      .ok ⟨entries.map (fun e => (e.1, jBroadcast L e.2))⟩
    else .error .valueError

/-- pandas pd.concat([a, b], ignore_index=True) for the shapes arising in
    load_data_from_tab: an empty accumulator concatenated with b is b, and
    frames with identical column names concatenate columnwise.  Frames of
    differing column sets never arise in the modelled loops. -/
def pdConcat (a b : DF) : DF :=
  if a.cols.isEmpty then b
  else if a.colNames = b.colNames then
    ⟨List.zipWith (fun ca cb => (ca.1, ca.2 ++ cb.2)) a.cols b.cols⟩
  else b

/-- pandas df.pop(name): the removed column's values and the remaining
    frame; KeyError when absent. -/
def DF.popCol (df : DF) (name : Str) : Except PyErr (List Cell × DF) :=
  match df.cols.find? (fun c => c.1 == name) with
  | some c => .ok (c.2, ⟨df.cols.eraseP (fun c' => c'.1 == name)⟩)
  | none => .error .keyError

/-- Insertion into a list at a position (clipped to the end). -/
def insertAt (k : Nat) (a : α) : List α → List α
  | [] => [a]
  | x :: xs =>
    match k with
    | 0 => a :: x :: xs
    | k' + 1 => x :: insertAt k' a xs

/-- pandas df.insert(k, name, values). -/
def DF.insertCol (df : DF) (k : Nat) (name : Str) (vals : List Cell) : DF :=
  ⟨insertAt k (name, vals) df.cols⟩

mutual
/-- An HTML element as seen through BeautifulSoup: tag name, optional id,
    class and type attributes, an optional decoded JSON payload for script
    elements (none models content json.loads rejects), the element's text,
    and its children in document order. -/
inductive HNode where
  | mk (tag : String) (idAttr : Option Str) (classAttr : Option Str)
      (typeAttr : Option Str) (payload : Option JVal) (text : Str)
      (children : HForest)

/-- A sequence of sibling HTML nodes in document order. -/
inductive HForest where
  | nil
  | cons (n : HNode) (rest : HForest)
end

/-- Tag name of a node. -/
def HNode.tag : HNode → String
  | .mk t _ _ _ _ _ _ => t

/-- id attribute of a node. -/
def HNode.idAttr : HNode → Option Str
  | .mk _ i _ _ _ _ _ => i

/-- class attribute of a node, as the raw attribute string. -/
def HNode.classAttr : HNode → Option Str
  | .mk _ _ c _ _ _ _ => c

/-- type attribute of a node. -/
def HNode.typeAttr : HNode → Option Str
  | .mk _ _ _ ty _ _ _ => ty

/-- Decoded JSON payload of a script node. -/
def HNode.payload : HNode → Option JVal
  | .mk _ _ _ _ pl _ _ => pl

/-- Text content of a node (bs4 .text). -/
def HNode.text : HNode → Str
  | .mk _ _ _ _ _ tx _ => tx

/-- Children of a node in document order. -/
def HNode.children : HNode → HForest
  | .mk _ _ _ _ _ _ cs => cs

mutual
/-- bs4 find: first node of the subtree rooted at n, in document order,
    satisfying p, together with the chain of its ancestors innermost
    first (anc is the chain above n). -/
def findNodeWithAnc (p : HNode → Bool) (anc : List HNode) (n : HNode) :
    Option (HNode × List HNode) :=
  match n with
  | .mk _ _ _ _ _ _ cs =>
    if p n then some (n, anc) else findForestWithAnc p (n :: anc) cs

/-- bs4 find over a forest, document order, with ancestor chains. -/
def findForestWithAnc (p : HNode → Bool) (anc : List HNode) :
    HForest → Option (HNode × List HNode)
  | .nil => none
  | .cons n rest =>
    match findNodeWithAnc p anc n with
    | some r => some r
    | none => findForestWithAnc p anc rest
end

mutual
/-- All nodes of the subtree rooted at n satisfying p, document order. -/
def selNode (p : HNode → Bool) (n : HNode) : List HNode :=
  match n with
  | .mk _ _ _ _ _ _ cs => (if p n then [n] else []) ++ selForest p cs

/-- All nodes of a forest satisfying p, document order (bs4 find_all and
    soupsieve select both enumerate this way). -/
def selForest (p : HNode → Bool) : HForest → List HNode
  | .nil => []
  | .cons n rest => selNode p n ++ selForest p rest
end

/-- bs4 soup.find(...): first matching node of the document. -/
def soupFind (p : HNode → Bool) (soup : HForest) : Option HNode :=
  (findForestWithAnc p [] soup).map (fun r => r.1)

/-- bs4 soup.find(...) keeping the ancestor chain of the hit, for
    find_parent queries. -/
def soupFindWithAnc (p : HNode → Bool) (soup : HForest) : Option (HNode × List HNode) :=
  findForestWithAnc p [] soup

/-- bs4 class_ matching: the query matches one of the whitespace-separated
    class tokens, or (for a multi-token query) the full attribute string. -/
def bs4ClassMatch (query : Str) (n : HNode) : Bool :=
  match n.classAttr with
  | none => false
  | some cls => (splitCh ' ' cls).any (fun t => t == query) || cls == query

/-- The soupsieve selector div[class^="..."]: a div whose raw class
    attribute string starts with the given prefix. -/
def cssDivClassStart (pre : Str) (n : HNode) : Bool :=
  n.tag == "div" &&
    (match n.classAttr with
     | some cls => pre.isPrefixOf cls
     | none => false)

/-- bs4 find("div", id=mid): id=None matches divs without an id attribute,
    mirroring BeautifulSoup. -/
def find_div (soup : HForest) (mid : Option Str) : Option HNode :=
  soupFind (fun n => n.tag == "div" && n.idAttr == mid) soup

/-- Decimal digits of a number, for the f-string building the selector. -/
def natToStr (n : Nat) : Str := Nat.toDigits 10 n

/-- cosd_scraper.get_file_section_names: ids (possibly None) of all divs
    whose class attribute matches "section level2", document order. -/
def get_file_section_names (soup : HForest) : List (Option Str) :=
  (selForest (fun n => n.tag == "div" && bs4ClassMatch (pys "section level2") n) soup).map
    HNode.idAttr

/-- cosd_scraper.get_file_child_div_names: parse the parent div's nesting
    level from the last character of its first class token starting with
    "level", then select descendant divs whose class attribute string starts
    with "section level<level+1>" and return their ids in document order. -/
def get_file_child_div_names (soup : HForest) (parent_div_name : Option Str) :
    Except PyErr (List (Option Str)) := do
  let parent_div ← exceptOfOption .typeError (find_div soup parent_div_name)
  let cls ← exceptOfOption .keyError parent_div.classAttr
  let div_class_names := splitCh ' ' cls
  let level_token ← exceptOfOption .indexError
    ((div_class_names.filter (fun t => (pys "level").isPrefixOf t)).get? 0)
  let last_char ← exceptOfOption .indexError level_token.getLast?
  let parent_level ←
    if last_char.isDigit then .ok (last_char.toNat - Char.toNat '0')
    else .error .valueError
  let child_level := parent_level + 1
  let child_divs :=
    selForest (cssDivClassStart (pys "section level" ++ natToStr child_level))
      parent_div.children
  .ok (child_divs.map HNode.idAttr)

/-- cosd_scraper.pull_data_from_hoverfield: wrap a non-list argument in a
    singleton list, then for each entry take the text after "Numerator:" up
    to the next tag-open character, stripped, and likewise for
    "Denominator:". -/
def pull_data_from_hoverfield (hover_text : JVal) : Except PyErr (List Str × List Str) := do
  let items := match hover_text with | .arr l => l | v => [v]
  items.foldlM (fun (acc : List Str × List Str) data_point => do
    let s ← match data_point with
      | .str s => pure s
      | _ => .error .attributeError
    let num_after ← exceptOfOption .indexError ((pySplit (pys "Numerator:") s).get? 1)
    let num_section := pyStrip ((splitCh '<' num_after).headD [])
    let den_after ← exceptOfOption .indexError ((pySplit (pys "Denominator:") s).get? 1)
    let den_section := pyStrip ((splitCh '<' den_after).headD [])
    .ok (acc.1 ++ [num_section], acc.2 ++ [den_section])) ([], [])

/-- Plot-name computation of load_data_from_tab: when the title splits on
    an opening paren into more than one part, take part 1, split it on the
    closing paren and take part 1 of that (IndexError when absent),
    stripped; otherwise the whole title. -/
def pyPlotName (tab_plot_title : Str) : Except PyErr Str :=
  if 1 < (splitCh '(' tab_plot_title).length then do
    let seg ← exceptOfOption .indexError ((splitCh '(' tab_plot_title).get? 1)
    let r ← exceptOfOption .indexError ((splitCh ')' seg).get? 1)
    .ok (pyStrip r)
  else .ok tab_plot_title

/-- The COSD_SECTION_ID scalar stamped on tab records: the queried tab div
    id, or JSON null when the id was absent (Python None). -/
def idVal : Option Str → JVal
  | some s => .str s
  | none => .null

/-- One iteration of the record-building loop of load_data_from_tab without
    hover fields: build the frame of one series entry from its name, x and
    y, and concatenate it onto the accumulator. -/
def plainStep (tab_div_id : Option Str) (section_num section_name plot_name : Str)
    (df_data : DF) (data_dict : JVal) : Except PyErr DF := do
  let name ← jGet (pys "name") data_dict
  let x ← jGet (pys "x") data_dict
  let y ← jGet (pys "y") data_dict
  let df_category ← pdDataFrame [
    (pys "COSD_SECTION_ID", idVal tab_div_id),
    (pys "COSD_SECTION_NUM", .str section_num),
    (pys "COSD_SECTION_NAME", .str section_name),
    (pys "COSD_PLOT_NAME", .str plot_name),
    (pys "CATEGORY", name),
    (pys "X", x),
    (pys "Y", y)]
  .ok (pdConcat df_data df_category)

/-- The record-building loop of load_data_from_tab without hover fields,
    starting from the empty frame. -/
def plainSeriesFold (tab_div_id : Option Str) (section_num section_name plot_name : Str)
    (data_dicts : List JVal) : Except PyErr DF :=
  data_dicts.foldlM (plainStep tab_div_id section_num section_name plot_name) ⟨[]⟩

/-- One iteration of the record-building loop of load_data_from_tab with
    hover fields: as the plain step, plus NUMERATOR and DENOMINATOR lists
    extracted from the hover template. -/
def hoverStep (tab_div_id : Option Str) (section_num section_name plot_name : Str)
    (df_data : DF) (data_dict : JVal) : Except PyErr DF := do
  let ht ← jGet (pys "hovertemplate") data_dict
  let nd ← pull_data_from_hoverfield ht
  let name ← jGet (pys "name") data_dict
  let x ← jGet (pys "x") data_dict
  let y ← jGet (pys "y") data_dict
  let df_category ← pdDataFrame [
    (pys "COSD_SECTION_ID", idVal tab_div_id),
    (pys "COSD_SECTION_NUM", .str section_num),
    (pys "COSD_SECTION_NAME", .str section_name),
    (pys "COSD_PLOT_NAME", .str plot_name),
    (pys "CATEGORY", name),
    (pys "X", x),
    (pys "Y", y),
    (pys "NUMERATOR", .arr (nd.1.map JVal.str)),
    (pys "DENOMINATOR", .arr (nd.2.map JVal.str))]
  .ok (pdConcat df_data df_category)

/-- The record-building loop of load_data_from_tab with hover fields,
    starting from the empty frame. -/
def hoverSeriesFold (tab_div_id : Option Str) (section_num section_name plot_name : Str)
    (data_dicts : List JVal) : Except PyErr DF :=
  data_dicts.foldlM (hoverStep tab_div_id section_num section_name plot_name) ⟨[]⟩

/-- cosd_scraper.load_data_from_tab: locate the tab div and its heading,
    decode the embedded JSON payload, compute the plot name, select the
    series entries by chart type (scatter drops the first entry, bar keeps
    all, any other type leaves the local unassigned), then build records
    with or without hover fields depending on the first retained entry. -/
def load_data_from_tab (soup : HForest) (tab_div_id : Option Str) : Except PyErr DF := do
  let parent_div ← exceptOfOption .attributeError (find_div soup tab_div_id)
  let h4 ← exceptOfOption .attributeError (soupFind (fun n => n.tag == "h4") parent_div.children)
  let tab_name := h4.text
  let section_num := (splitCh ' ' tab_name).headD []
  let section_name := tab_name.drop (section_num.length + 1)
  let tab_div ← exceptOfOption .attributeError (find_div soup tab_div_id)
  let data_script ← exceptOfOption .attributeError
    (soupFind (fun n => n.tag == "script" && n.typeAttr == some (pys "application/json"))
      tab_div.children)
  let data_json ← exceptOfOption .valueError data_script.payload
  let tab_plot_title ← jStr
    (← jGet (pys "text") (← jGet (pys "title") (← jGet (pys "layout") (← jGet (pys "x") data_json))))
  let plot_name ← pyPlotName tab_plot_title
  let data ← jArr (← jGet (pys "data") (← jGet (pys "x") data_json))
  let first_entry ← exceptOfOption .indexError (data.get? 0)
  let data_type ← jGet (pys "type") first_entry
  let data_dicts ←
    if jEqStr data_type (pys "scatter") then .ok (data.drop 1)
    else if jEqStr data_type (pys "bar") then .ok data
    else .error .unboundLocal
  let head_dict ← exceptOfOption .indexError (data_dicts.get? 0)
  let has_hover ← jHasKey (pys "hovertemplate") head_dict
  let hover_fields := has_hover && jEqStr data_type (pys "bar")
  if hover_fields then
    hoverSeriesFold tab_div_id section_num section_name plot_name data_dicts
  else
    plainSeriesFold tab_div_id section_num section_name plot_name data_dicts

/-- The metadata stamping loop at the end of extract_all_tabs_data: set
    DATE_DATA, ORG_CODE and ORG_NAME on every collected frame. -/
def stampTabs (meta : Date × Str × Str) (l : List (Str × DF)) : List (Str × DF) :=
  l.map (fun kv => (kv.1,
    ((kv.2.setCol (pys "DATE_DATA") (Cell.date meta.1)).setCol
      (pys "ORG_CODE") (Cell.j (.str meta.2.1))).setCol
      (pys "ORG_NAME") (Cell.j (.str meta.2.2))))

/-- Python dict assignment d[k] = v preserving insertion order. -/
def dictSet (k : Str) (v : DF) (d : List (Str × DF)) : List (Str × DF) :=
  if d.any (fun kv => kv.1 == k) then
    d.map (fun kv => if kv.1 == k then (k, v) else kv)
  else d ++ [(k, v)]

/-- The collection loop of cosd_scraper.extract_all_tabs_data: walk
    sections, subsections and tabs; for tabs inside a tabset, extract the
    tab frame and key it by the id with hyphens replaced by underscores.
    The file read itself is I/O and the parsed document is taken as
    input. -/
def collect_tabs_data (soup : HForest) : Except PyErr (List (Str × DF)) := do
  let section_names := get_file_section_names soup
  section_names.foldlM (fun acc section_name => do
    let subsection_names ← get_file_child_div_names soup section_name
    subsection_names.foldlM (fun acc2 subsection_name => do
      let tab_names ← get_file_child_div_names soup subsection_name
      tab_names.foldlM (fun acc3 tab_name => do
        let hit ← exceptOfOption .attributeError
          (soupFindWithAnc (fun n => n.tag == "div" && n.idAttr == tab_name) soup)
        if hit.2.any (fun a => a.tag == "div" && bs4ClassMatch (pys "tabset") a) then do
          let df ← load_data_from_tab soup tab_name
          let key ← match tab_name with
            | some s => .ok (s.map (fun ch => if ch = '-' then '_' else ch))
            | none => .error .attributeError
          .ok (dictSet key df acc3)
        else .ok acc3) acc2) acc) []

/-- cosd_scraper.extract_all_tabs_data, continued: stamp the file-name
    metadata onto every collected frame. -/
def extract_all_tabs_data (soup : HForest) (file_name : Str) :
    Except PyErr (List (Str × DF)) := do
  let extracted_data ← collect_tabs_data soup
  let meta ← file_name_metadata file_name
  .ok (stampTabs meta extracted_data)

/-- The locate-and-shape part of cosd_scraper.extract_overall_ranking_data:
    find the appendices div,
    within it the first div whose id ends in overall-ranking with class
    "section level4" (raising when there is none), decode its payload,
    recover column names from either the legacy container HTML string or the
    column definitions (skipping the first), normalize them, build the
    transposed frame, prepend the three identity columns and stamp
    DATE_DATA. -/
def extract_overall_ranking_core (soup : HForest) : Except PyErr DF := do
  let appendix_div ← exceptOfOption .attributeError (find_div soup (some (pys "appendices")))
  let section_div_list := selForest (fun n => n.tag == "div" &&
      (match n.idAttr with
       | some i => (pys "overall-ranking").isSuffixOf i
       | none => false) &&
      bs4ClassMatch (pys "section level4") n) appendix_div.children
  let section_div ← match section_div_list with
    | [] => .error .raisedException
    | s :: _ => .ok s
  let h4 ← exceptOfOption .attributeError (soupFind (fun n => n.tag == "h4") section_div.children)
  let section_heading := h4.text
  let section_num := (splitCh ' ' section_heading).headD []
  let section_name := section_heading.drop (section_num.length + 1)
  let ort_div ← exceptOfOption .attributeError (find_div soup section_div.idAttr)
  let data_script ← exceptOfOption .attributeError
    (soupFind (fun n => n.tag == "script" && n.typeAttr == some (pys "application/json"))
      ort_div.children)
  let data_json ← exceptOfOption .valueError data_script.payload
  let columnDefs ← jArr (← jGet (pys "columnDefs") (← jGet (pys "options") (← jGet (pys "x") data_json)))
  let column_names_raw ←
    if columnDefs.length = 1 then do
      let col_string ← jStr (← jGet (pys "container") (← jGet (pys "x") data_json))
      .ok (((pySplit (pys "<th>") col_string).drop 1).map
        (fun x => (pySplit (pys "</th>") x).headD []))
    else (columnDefs.drop 1).mapM (fun x => do jStr (← jGet (pys "name") x))
  let column_names := column_names_raw.map normalize_col
  let dataArr ← jArr (← jGet (pys "data") (← jGet (pys "x") data_json))
  let dataRows ← dataArr.mapM (fun r => match r with
    | .arr l => .ok l
    | _ => .error .typeError)
  let df ←
    if column_names.length = dataArr.length then
      .ok (DF.mk (column_names.zip (dataRows.map (fun r => r.map Cell.j))))
    else .error .valueError
  let sid ← exceptOfOption .attributeError section_div.idAttr
  let df := df.setCol (pys "COSD_SECTION_ID")
    (Cell.j (.str (sid.map (fun ch => if ch = '-' then '_' else ch))))
  let df := df.setCol (pys "COSD_SECTION_NUM") (Cell.j (.str section_num))
  let df := df.setCol (pys "COSD_SECTION_NAME") (Cell.j (.str section_name))
  let p1 ← df.popCol (pys "COSD_SECTION_ID")
  let df := p1.2.insertCol 0 (pys "COSD_SECTION_ID") p1.1
  let p2 ← df.popCol (pys "COSD_SECTION_NUM")
  let df := p2.2.insertCol 1 (pys "COSD_SECTION_NUM") p2.1
  let p3 ← df.popCol (pys "COSD_SECTION_NAME")
  let df := p3.2.insertCol 2 (pys "COSD_SECTION_NAME") p3.1
  .ok df

/-- cosd_scraper.extract_overall_ranking_data, continued: stamp DATE_DATA
    (and only DATE_DATA) from the file-name metadata onto the frame. -/
def extract_overall_ranking_data (soup : HForest) (file_name : Str) : Except PyErr DF := do
  let df ← extract_overall_ranking_core soup
  let meta ← file_name_metadata file_name
  .ok (df.setCol (pys "DATE_DATA") (Cell.date meta.1))


/-- The collaborators of main.process_files: the two extraction calls (the
    directory is fixed by the caller, so each is a function of the file
    name), the upload gateway returning its boolean success signal, the
    timestamp value datetime.now() produces, and the three configuration
    flags.  CSV/soup file I/O and the Snowflake connection are side effects
    outside the model. -/
structure BatchEnv where
  extract_overall_ranking : Str → Except PyErr DF
  extract_all_tabs : Str → Except PyErr (List (Str × DF))
  upload_df : Str → DF → Bool
  nowCell : Cell
  process_table : Bool
  process_tabs : Bool
  archive_dir : Bool

/-- df.iloc[0, 0]: the first value of the first column. -/
def iloc00 (df : DF) : Except PyErr Cell :=
  match df.cols with
  | [] => .error .indexError
  | c :: _ => exceptOfOption .indexError (c.2.get? 0)

/-- A cell used with string methods must hold a string. -/
def cellStr : Cell → Except PyErr Str
  | .j (.str s) => .ok s
  | _ => .error .attributeError

/-- The blacklist test of the tab loop in main.process_files. -/
def blacklisted (ds_id : Str) : Bool := pyContains (pys "stage_by_cancer_group_in_") ds_id

/-- The body of the per-file loop of main.process_files: extract and upload
    the overall-ranking table when process_table is set, extract and upload
    the tab frames (skipping blacklisted dataset ids) when process_tabs is
    set, and return the processing flag that is true exactly when every
    attempted upload succeeded.  Any exception escapes, exactly as in the
    source, which has no handler around this body. -/
def process_file (env : BatchEnv) (file_name : Str) : Except PyErr Bool := do
  let flag_table ←
    if env.process_table then do
      let df_ort ← env.extract_overall_ranking file_name
      let c ← iloc00 df_ort
      let ds_id ← cellStr c
      let df_ort := df_ort.setCol (pys "TIMESTAMP") env.nowCell
      .ok (env.upload_df (List.intercalate ['_'] ((splitCh '_' ds_id).drop 1)) df_ort)
    else .ok true
  let flag_tabs ←
    if env.process_tabs then do
      let df_dict ← env.extract_all_tabs file_name
      .ok (df_dict.foldl (fun acc kv =>
        let df := kv.2.setCol (pys "TIMESTAMP") env.nowCell
        if blacklisted kv.1 then acc
        else acc && env.upload_df kv.1 df) true)
    else .ok true
  .ok (flag_table && flag_tabs)

/-- main.process_files: run the per-file body over the batch in order.  The
    result lists each fully processed file with the flag deciding whether it
    was archived (processing flag conjoined with the archive_dir option),
    paired with the exception that aborted the loop, if any; files after an
    exception are never reached because the loop body has no handler. -/
def process_files (env : BatchEnv) : List Str → List (Str × Bool) × Option PyErr
  | [] => ([], none)
  | f :: fs =>
    match process_file env f with
    | .error e => ([], some e)
    | .ok flag =>
      let rest := process_files env fs
      ((f, flag && env.archive_dir) :: rest.1, rest.2)


/-- A chart payload of the htmlwidget shape read by load_data_from_tab. -/
def mkChartPayload (title : Str) (data : List JVal) : JVal :=
  .obj [(pys "x", .obj [
    (pys "layout", .obj [(pys "title", .obj [(pys "text", .str title)])]),
    (pys "data", .arr data)])]

/-- A minimal document containing one tab div with id tab1, its heading and
    its embedded JSON payload, used to exercise load_data_from_tab. -/
def tabDoc (payload : JVal) : HForest :=
  .cons (.mk "div" (some (pys "tab1")) (some (pys "section level4")) none none []
    (.cons (.mk "h4" none none none none (pys "4.1 Example Tab") .nil)
    (.cons (.mk "script" none none (some (pys "application/json")) (some payload) [] .nil)
    .nil))) .nil


/-- The stage of load_data_from_tab after the series entries have been
    selected: compute the plot name, consult the first retained entry for a
    hovertemplate key, and run the hover or the plain record loop. -/
def seriesStage (tab_div_id : Option Str) (section_num section_name title : Str)
    (data_type : JVal) (data_dicts : List JVal) : Except PyErr DF := do
  let plot_name ← pyPlotName title
  let head_dict ← exceptOfOption .indexError (data_dicts.get? 0)
  let has_hover ← jHasKey (pys "hovertemplate") head_dict
  if has_hover && jEqStr data_type (pys "bar") then
    hoverSeriesFold tab_div_id section_num section_name plot_name data_dicts
  else
    plainSeriesFold tab_div_id section_num section_name plot_name data_dicts


/-- The payload-processing tail of load_data_from_tab, after the tab div,
    heading and script payload have been located: plot name, chart-type
    driven series selection, hover-key consultation of the first retained
    entry, and the record loops. -/
def tabPayloadStage (tab_div_id : Option Str) (section_num section_name title : Str)
    (data : List JVal) : Except PyErr DF := do
  let plot_name ← pyPlotName title
  let first_entry ← exceptOfOption .indexError (data.get? 0)
  let data_type ← jGet (pys "type") first_entry
  let data_dicts ←
    if jEqStr data_type (pys "scatter") then Except.ok (data.drop 1)
    else if jEqStr data_type (pys "bar") then Except.ok data
    else Except.error PyErr.unboundLocal
  let head_dict ← exceptOfOption .indexError (data_dicts.get? 0)
  let has_hover ← jHasKey (pys "hovertemplate") head_dict
  if has_hover && jEqStr data_type (pys "bar") then
    hoverSeriesFold tab_div_id section_num section_name plot_name data_dicts
  else
    plainSeriesFold tab_div_id section_num section_name plot_name data_dicts


/-- The plot name as the specification sentence phrases it: all of the text
    after the first closing parenthesis, trimmed.  Stated from the
    specification for comparison with pyPlotName. -/
def specPlotNameAfterFirstClose (title : Str) : Str :=
  pyStrip ((title.dropWhile (fun c => c ≠ ')')).drop 1)


/-- The (category name, x-values, y-values) triple backing one well-formed
    series entry. -/
abbrev SeriesInfo := JVal × List JVal × List JVal

/-- Shape of a well-formed series entry: a name field that is not an array,
    and x and y fields holding arrays. -/
def SeriesShape (d : JVal) (i : SeriesInfo) : Prop :=
  jGet (pys "name") d = .ok i.1 ∧ (∀ l, i.1 ≠ JVal.arr l) ∧
  jGet (pys "x") d = .ok (.arr i.2.1) ∧ jGet (pys "y") d = .ok (.arr i.2.2)

/-- The columns of the plain-records output for a list of series triples:
    one row per co-indexed (x, y) pair of each entry, the identity and plot
    name columns broadcast over all rows, CATEGORY repeated per entry. -/
def plainCols (tab_div_id : Option Str) (section_num section_name plot_name : Str)
    (info : List SeriesInfo) : List (Str × List Cell) :=
  [(pys "COSD_SECTION_ID",
      info.flatMap (fun i => List.replicate i.2.1.length (Cell.j (idVal tab_div_id)))),
   (pys "COSD_SECTION_NUM",
      info.flatMap (fun i => List.replicate i.2.1.length (Cell.j (.str section_num)))),
   (pys "COSD_SECTION_NAME",
      info.flatMap (fun i => List.replicate i.2.1.length (Cell.j (.str section_name)))),
   (pys "COSD_PLOT_NAME",
      info.flatMap (fun i => List.replicate i.2.1.length (Cell.j (.str plot_name)))),
   (pys "CATEGORY",
      info.flatMap (fun i => List.replicate i.2.1.length (Cell.j i.1))),
   (pys "X", info.flatMap (fun i => i.2.1.map Cell.j)),
   (pys "Y", info.flatMap (fun i => i.2.2.map Cell.j))]


/-- The plain-branch condition as the claim phrases it: every retained
    series entry lacks a hovertemplate field, or the chart type is not bar.
    Stated from the specification for comparison with the code. -/
def specPlainCond (data_type : JVal) (data_dicts : List JVal) : Prop :=
  (∀ d ∈ data_dicts, jHasKey (pys "hovertemplate") d ≠ .ok true) ∨
    jEqStr data_type (pys "bar") = false


/-- All nodes of a forest in document order. -/
def forestNodes (f : HForest) : List HNode := selForest (fun _ => true) f

/-- A document with a level-2 section div whose descendant div carries the
    class attribute "section level30": its level token is level30, not
    level3, yet the prefix selector of get_file_child_div_names matches
    it. -/
def levelTokenDoc : HForest :=
  .cons (.mk "div" (some (pys "p")) (some (pys "section level2")) none none []
    (.cons (.mk "div" (some (pys "c")) (some (pys "section level30")) none none [] .nil)
    .nil)) .nil

/-- A document with a level-2 section div whose descendant div has the class
    attribute "level3 section": its level token is exactly level3, yet the
    attribute string does not start with "section level3" so the selector of
    get_file_child_div_names misses it. -/
def levelTokenDoc2 : HForest :=
  .cons (.mk "div" (some (pys "p")) (some (pys "section level2")) none none []
    (.cons (.mk "div" (some (pys "d")) (some (pys "level3 section")) none none [] .nil)
    .nil)) .nil


/-- A ranking payload in the current encoding: five column-definition
    objects (the first a row-index column) and a row-major data array. -/
def rankingPayload (n1 n2 n3 n4 : Str) (rows : List JVal) : JVal :=
  .obj [(pys "x", .obj [
    (pys "options", .obj [(pys "columnDefs", .arr [
      .obj [(pys "name", .str (pys " "))],
      .obj [(pys "name", .str n1)],
      .obj [(pys "name", .str n2)],
      .obj [(pys "name", .str n3)],
      .obj [(pys "name", .str n4)]])]),
    (pys "container", .str []),
    (pys "data", .arr rows)])]

/-- A document holding the appendices div with one overall-ranking level-4
    section containing a heading and the ranking payload. -/
def rankingDoc (payload : JVal) : HForest :=
  .cons (.mk "div" (some (pys "appendices")) none none none []
    (.cons (.mk "div" (some (pys "a1-overall-ranking")) (some (pys "section level4"))
        none none []
      (.cons (.mk "h4" none none none none (pys "A1 Overall Ranking") .nil)
      (.cons (.mk "script" none none (some (pys "application/json")) (some payload) [] .nil)
      .nil))) .nil)) .nil


/-- The frame-shaping tail of extract_overall_ranking_data, after the
    transposed frame with its four normalized column names has been built:
    stamp the three identity columns and move them to the front. -/
def rankingTail (m1 m2 m3 m4 : Str) (c1 c2 c3 c4 : List Cell)
    (sid snum sname : Str) : Except PyErr DF := do
  let df := DF.mk [(m1, c1), (m2, c2), (m3, c3), (m4, c4)]
  let df := df.setCol (pys "COSD_SECTION_ID") (Cell.j (.str sid))
  let df := df.setCol (pys "COSD_SECTION_NUM") (Cell.j (.str snum))
  let df := df.setCol (pys "COSD_SECTION_NAME") (Cell.j (.str sname))
  let p1 ← df.popCol (pys "COSD_SECTION_ID")
  let df := p1.2.insertCol 0 (pys "COSD_SECTION_ID") p1.1
  let p2 ← df.popCol (pys "COSD_SECTION_NUM")
  let df := p2.2.insertCol 1 (pys "COSD_SECTION_NUM") p2.1
  let p3 ← df.popCol (pys "COSD_SECTION_NAME")
  let df := p3.2.insertCol 2 (pys "COSD_SECTION_NAME") p3.1
  .ok df


/-- A concrete batch environment: ranking extraction is wired to real
    extract_overall_ranking_data over a per-file document, where the file
    2023_04_BAD_Trust.html parses to an empty document (no appendices div,
    so extraction raises) and every other file parses to a well-formed
    ranking document; uploads always succeed. -/
def c1Env : BatchEnv where
  extract_overall_ranking := fun f =>
    if f == pys "2023_04_BAD_Trust.html" then
      extract_overall_ranking_data .nil f
    else
      extract_overall_ranking_data
        (rankingDoc (rankingPayload (pys "Trust") (pys "Rank") (pys "Score (%)") (pys "Total")
          [.arr [.num 1, .num 2, .num 3, .num 4],
           .arr [.num 5, .num 6, .num 7, .num 8],
           .arr [.num 9, .num 10, .num 11, .num 12],
           .arr [.num 13, .num 14, .num 15, .num 16]])) f
  extract_all_tabs := fun _ => .ok []
  upload_df := fun _ _ => true
  nowCell := Cell.timestamp
  process_table := true
  process_tabs := false
  archive_dir := true

/- ===================== THEOREMS ===================== -/

theorem char_toUpper_idem (c : Char) : c.toUpper.toUpper = c.toUpper := by
  unfold Char.toUpper
  by_cases h : c.toNat ≥ 97 ∧ c.toNat ≤ 122
  · rw [if_pos h]
    have hv : (c.toNat - 32).isValidChar := by
      left
      have := h.2
      omega
    have ht : (Char.ofNat (c.toNat - 32)).toNat = c.toNat - 32 := by
      unfold Char.ofNat
      rw [dif_pos hv]
      simp [Char.ofNatAux, Char.toNat, UInt32.toNat, BitVec.toNat_ofNatLt]
    rw [if_neg]
    rw [ht]
    omega
  · rw [if_neg h, if_neg h]

theorem pyContains_nil (pat : Str) (h : pat ≠ []) : pyContains pat [] = false := by
  cases pat with
  | nil => exact absurd rfl h
  | cons a as => simp [pyContains, List.isPrefixOf]

theorem pyContains_cons (pat : Str) (c : Char) (cs : Str) :
    pyContains pat (c :: cs) = (pat.isPrefixOf (c :: cs) || pyContains pat cs) := by
  simp [pyContains]

theorem pyReplaceAux_mem {pat rep : Str} {fuel : Nat} {s : Str} {c : Char}
    (h : c ∈ pyReplaceAux pat rep fuel s) : c ∈ s ∨ c ∈ rep := by
  induction fuel generalizing s with
  | zero => exact Or.inl h
  | succ fuel ih =>
    cases s with
    | nil => simp [pyReplaceAux] at h
    | cons a as =>
      rw [pyReplaceAux] at h
      by_cases hp : pat.isPrefixOf (a :: as)
      · rw [if_pos hp] at h
        rcases List.mem_append.mp h with h1 | h1
        · exact Or.inr h1
        · rcases ih h1 with h2 | h2
          · exact Or.inl (List.mem_of_mem_drop h2)
          · exact Or.inr h2
      · rw [if_neg hp] at h
        rcases List.mem_cons.mp h with h1 | h1
        · exact Or.inl (h1 ▸ List.mem_cons_self a as)
        · rcases ih h1 with h2 | h2
          · exact Or.inl (List.mem_cons_of_mem a h2)
          · exact Or.inr h2

theorem pyReplaceAux_of_not_contains {pat rep : Str} {fuel : Nat} {s : Str}
    (h : pyContains pat s = false) : pyReplaceAux pat rep fuel s = s := by
  induction fuel generalizing s with
  | zero => rfl
  | succ fuel ih =>
    cases s with
    | nil => rfl
    | cons a as =>
      rw [pyContains_cons, Bool.or_eq_false_iff] at h
      rw [pyReplaceAux, if_neg (by simp [h.1]), ih h.2]

theorem pyContains_single (a : Char) (s : Str) : pyContains [a] s = true ↔ a ∈ s := by
  induction s with
  | nil => simp [pyContains, List.isPrefixOf]
  | cons b bs ih =>
    have hpre : List.isPrefixOf [a] (b :: bs) = (a == b) := by
      show (a == b && List.isPrefixOf [] bs) = (a == b)
      simp [List.isPrefixOf]
    rw [pyContains_cons, Bool.or_eq_true, ih, hpre]
    simp [List.mem_cons, beq_iff_eq]

theorem space_not_mem_replaceSpace {fuel : Nat} {s : Str} (h : s.length ≤ fuel) :
    ' ' ∉ pyReplaceAux [' '] ['_'] fuel s := by
  induction fuel generalizing s with
  | zero =>
    have : s = [] := List.length_eq_zero.mp (Nat.le_zero.mp h)
    subst this
    simp [pyReplaceAux]
  | succ fuel ih =>
    cases s with
    | nil => simp [pyReplaceAux]
    | cons a as =>
      rw [pyReplaceAux]
      by_cases hp : List.isPrefixOf [' '] (a :: as)
      · rw [if_pos hp]
        intro hm
        rcases List.mem_cons.mp hm with h1 | h1
        · exact absurd h1.symm (by decide)
        · exact ih (by simpa using Nat.le_of_succ_le_succ (by simpa using h)) h1
      · rw [if_neg hp]
        intro hm
        rcases List.mem_cons.mp hm with h1 | h1
        · apply hp
          rw [← h1]
          simp [List.isPrefixOf]
        · exact ih (Nat.le_of_succ_le_succ (by simpa using h)) h1

theorem pys_space : pys " " = [' '] := rfl

theorem pys_pct : pys "(%)" = ['(', '%', ')'] := rfl

theorem pys_per : pys "PER" = ['P', 'E', 'R'] := rfl

theorem close_head_of_replace {fuel : Nat} {ds : Str}
    (h : List.isPrefixOf [')'] (pyReplaceAux ['(', '%', ')'] ['P', 'E', 'R'] fuel ds) = true) :
    List.isPrefixOf [')'] ds = true := by
  cases fuel with
  | zero => exact h
  | succ fuel =>
    cases ds with
    | nil => simp [pyReplaceAux, List.isPrefixOf] at h
    | cons e es =>
      rw [pyReplaceAux] at h
      by_cases hp : List.isPrefixOf ['(', '%', ')'] (e :: es)
      · rw [if_pos hp] at h
        simp [List.isPrefixOf] at h
      · rw [if_neg hp] at h
        simp only [List.isPrefixOf, Bool.and_eq_true] at h ⊢
        exact ⟨h.1, trivial⟩

theorem pct_tail_of_replace {fuel : Nat} {cs : Str}
    (h : List.isPrefixOf ['%', ')'] (pyReplaceAux ['(', '%', ')'] ['P', 'E', 'R'] fuel cs) = true) :
    List.isPrefixOf ['%', ')'] cs = true := by
  cases fuel with
  | zero => exact h
  | succ fuel =>
    cases cs with
    | nil => simp [pyReplaceAux, List.isPrefixOf] at h
    | cons d ds =>
      rw [pyReplaceAux] at h
      by_cases hp : List.isPrefixOf ['(', '%', ')'] (d :: ds)
      · rw [if_pos hp] at h
        simp [List.isPrefixOf] at h
      · rw [if_neg hp] at h
        simp only [List.isPrefixOf, Bool.and_eq_true] at h ⊢
        exact ⟨h.1, close_head_of_replace h.2⟩

theorem no_pct_occur {fuel : Nat} {s : Str} (h : s.length ≤ fuel) :
    pyContains ['(', '%', ')'] (pyReplaceAux ['(', '%', ')'] ['P', 'E', 'R'] fuel s) = false := by
  induction fuel generalizing s with
  | zero =>
    have : s = [] := List.length_eq_zero.mp (Nat.le_zero.mp h)
    subst this
    exact pyContains_nil _ (by decide)
  | succ fuel ih =>
    cases s with
    | nil => exact pyContains_nil _ (by decide)
    | cons a as =>
      rw [pyReplaceAux]
      by_cases hp : List.isPrefixOf ['(', '%', ')'] (a :: as)
      · rw [if_pos hp]
        have hdrop : (List.drop (['(', '%', ')'] : Str).length (a :: as)).length ≤ fuel := by
          rw [List.length_drop]
          have h' : as.length ≤ fuel := by simpa using Nat.le_of_succ_le_succ (by simpa using h)
          simp only [List.length_cons]
          omega
        simp only [List.cons_append, List.nil_append]
        rw [pyContains_cons, pyContains_cons, pyContains_cons, ih hdrop]
        simp [List.isPrefixOf]
      · rw [if_neg hp]
        rw [pyContains_cons]
        have hnp : List.isPrefixOf ['(', '%', ')'] (a :: pyReplaceAux ['(', '%', ')'] ['P', 'E', 'R'] fuel as) = false := by
          by_contra hc
          rw [Bool.not_eq_false] at hc
          simp only [List.isPrefixOf, Bool.and_eq_true] at hc
          have hpre := pct_tail_of_replace hc.2
          apply hp
          simp only [List.isPrefixOf, Bool.and_eq_true]
          exact ⟨hc.1, hpre⟩
        rw [hnp, ih (by simpa using Nat.le_of_succ_le_succ (by simpa using h))]
        rfl

theorem normalize_col_mem_fixed {x : Str} {c : Char} (h : c ∈ normalize_col x) :
    c.toUpper = c := by
  unfold normalize_col pyReplace at h
  rcases pyReplaceAux_mem h with h1 | h1
  · rcases pyReplaceAux_mem h1 with h2 | h2
    · rcases List.mem_map.mp h2 with ⟨d, _, hd⟩
      rw [← hd]
      exact char_toUpper_idem d
    · rw [show pys "_" = ['_'] from rfl] at h2
      simp only [List.mem_singleton] at h2
      subst h2
      decide
  · rw [pys_per] at h1
    simp only [List.mem_cons, List.not_mem_nil, or_false] at h1
    rcases h1 with rfl | rfl | rfl <;> decide

theorem space_not_mem_normalize_col (x : Str) : ' ' ∉ normalize_col x := by
  intro h
  unfold normalize_col pyReplace at h
  rcases pyReplaceAux_mem h with h1 | h1
  · rw [pys_space] at h1
    exact space_not_mem_replaceSpace (Nat.le_refl _)
      (by simpa [pys_space, pys] using h1)
  · rw [pys] at h1
    simp at h1

/-- C8: normalizing a column name (upper-case, spaces to underscores, the
literal substring of an opening paren, percent sign and closing paren to PER)
is idempotent: normalizing twice equals normalizing once. -/
theorem normalize_col_idem (x : Str) : normalize_col (normalize_col x) = normalize_col x := by
  have hupper : pyUpper (normalize_col x) = normalize_col x := by
    unfold pyUpper
    calc (normalize_col x).map Char.toUpper
        = (normalize_col x).map id :=
          List.map_congr_left (fun c hc => normalize_col_mem_fixed hc)
      _ = normalize_col x := List.map_id _
  have hspace : pyReplace (pys " ") (pys "_") (normalize_col x) = normalize_col x := by
    apply pyReplaceAux_of_not_contains
    rw [pys_space]
    cases hcs : pyContains [' '] (normalize_col x) with
    | false => rfl
    | true =>
      exact absurd ((pyContains_single ' ' _).mp hcs) (space_not_mem_normalize_col x)
  have hpct : pyReplace (pys "(%)") (pys "PER") (normalize_col x) = normalize_col x := by
    apply pyReplaceAux_of_not_contains
    rw [pys_pct]
    show pyContains ['(', '%', ')'] (normalize_col x) = false
    unfold normalize_col pyReplace
    rw [pys_pct, pys_per]
    exact no_pct_occur (Nat.le_refl _)
  show pyReplace (pys "(%)") (pys "PER")
      (pyReplace (pys " ") (pys "_") (pyUpper (normalize_col x))) = normalize_col x
  rw [hupper, hspace, hpct]

theorem except_bind_ok (a : α) (f : α → Except PyErr β) :
    (Except.ok a >>= f) = f a := rfl

theorem except_bind_error (e : PyErr) (f : α → Except PyErr β) :
    ((Except.error e : Except PyErr α) >>= f) = .error e := rfl

theorem load_tabDoc_reduce (title : Str) (data : List JVal) :
    load_data_from_tab (tabDoc (mkChartPayload title data)) (some (pys "tab1")) =
      tabPayloadStage (some (pys "tab1")) (pys "4.1") (pys "Example Tab") title data := rfl

theorem tabPayloadStage_select (tab_div_id : Option Str)
    (section_num section_name title : Str) (d0 : JVal) (rest : List JVal) (t : Str)
    (ht : jGet (pys "type") d0 = .ok (.str t)) :
    tabPayloadStage tab_div_id section_num section_name title (d0 :: rest) =
      if t == pys "scatter" then
        seriesStage tab_div_id section_num section_name title (.str t) rest
      else if t == pys "bar" then
        seriesStage tab_div_id section_num section_name title (.str t) (d0 :: rest)
      else (do let _ ← pyPlotName title; Except.error PyErr.unboundLocal) := by
  unfold tabPayloadStage seriesStage
  cases hplot : pyPlotName title with
  | error e =>
    rw [except_bind_error]
    by_cases h1 : t == pys "scatter"
    · rw [if_pos h1, except_bind_error]
    · rw [if_neg h1]
      by_cases h2 : t == pys "bar"
      · rw [if_pos h2, except_bind_error]
      · rw [if_neg h2, except_bind_error]
  | ok pn =>
    simp only [except_bind_ok, List.get?_cons_zero, exceptOfOption, ht, jEqStr,
      except_bind_error, List.drop_succ_cons, List.drop_zero]

/-- C7: file_name_metadata applied to "2023_04_ABC_Example Trust.html"
returns the date 2023-04-01, org_code "ABC" and org_name "Example Trust",
and applied to "2023_04_ABC_Example Trust_FIX.html" it returns the
identical triple. -/
theorem file_name_metadata_example_trust :
    file_name_metadata (pys "2023_04_ABC_Example Trust.html") =
      .ok (⟨2023, 4, 1⟩, pys "ABC", pys "Example Trust") ∧
    file_name_metadata (pys "2023_04_ABC_Example Trust_FIX.html") =
      .ok (⟨2023, 4, 1⟩, pys "ABC", pys "Example Trust") :=
  ⟨by rfl, by rfl⟩

/-- C10: on a payload whose first series entry has a type that is neither
scatter nor bar, load_data_from_tab fails: the list of series entries is
never assigned, so consulting it raises (UnboundLocalError in the source;
the extraction is only defined for the two chart types). -/
theorem load_data_from_tab_other_type_fails (title : Str) (d0 : JVal)
    (rest : List JVal) (t : Str)
    (ht : jGet (pys "type") d0 = .ok (.str t))
    (hs : t ≠ pys "scatter") (hb : t ≠ pys "bar") :
    ∃ e, load_data_from_tab (tabDoc (mkChartPayload title (d0 :: rest)))
      (some (pys "tab1")) = .error e := by
  rw [load_tabDoc_reduce, tabPayloadStage_select _ _ _ _ _ _ _ ht]
  rw [if_neg (by simpa using hs), if_neg (by simpa using hb)]
  cases hplot : pyPlotName title with
  | error e => exact ⟨e, by rfl⟩
  | ok pn => exact ⟨.unboundLocal, by rfl⟩

theorem load_data_from_tab_other_type_fails_witness :
    ∃ e, load_data_from_tab
      (tabDoc (mkChartPayload (pys "T") [.obj [(pys "type", .str (pys "pie"))]]))
      (some (pys "tab1")) = .error e :=
  load_data_from_tab_other_type_fails (pys "T") (.obj [(pys "type", .str (pys "pie"))])
    [] (pys "pie") (by rfl) (by decide) (by decide)

/-- C9: for a payload whose first series entry is scatter-typed, the output
of load_data_from_tab is the series stage applied to the remaining entries
only, hence independent of the content of the first entry (replacing it by
any other scatter-typed entry gives the same result); for a bar-typed first
entry, all series entries are used. -/
theorem load_data_from_tab_scatter_excludes_first (title : Str) (d0 d0' b0 : JVal)
    (rest brest : List JVal)
    (h0 : jGet (pys "type") d0 = .ok (.str (pys "scatter")))
    (h0' : jGet (pys "type") d0' = .ok (.str (pys "scatter")))
    (hb : jGet (pys "type") b0 = .ok (.str (pys "bar"))) :
    (load_data_from_tab (tabDoc (mkChartPayload title (d0 :: rest))) (some (pys "tab1")) =
      seriesStage (some (pys "tab1")) (pys "4.1") (pys "Example Tab") title
        (.str (pys "scatter")) rest) ∧
    (load_data_from_tab (tabDoc (mkChartPayload title (d0 :: rest))) (some (pys "tab1")) =
      load_data_from_tab (tabDoc (mkChartPayload title (d0' :: rest))) (some (pys "tab1"))) ∧
    (load_data_from_tab (tabDoc (mkChartPayload title (b0 :: brest))) (some (pys "tab1")) =
      seriesStage (some (pys "tab1")) (pys "4.1") (pys "Example Tab") title
        (.str (pys "bar")) (b0 :: brest)) := by
  have e0 : load_data_from_tab (tabDoc (mkChartPayload title (d0 :: rest))) (some (pys "tab1")) =
      seriesStage (some (pys "tab1")) (pys "4.1") (pys "Example Tab") title
        (.str (pys "scatter")) rest := by
    rw [load_tabDoc_reduce, tabPayloadStage_select _ _ _ _ _ _ _ h0, if_pos (by decide)]
  have e0' : load_data_from_tab (tabDoc (mkChartPayload title (d0' :: rest))) (some (pys "tab1")) =
      seriesStage (some (pys "tab1")) (pys "4.1") (pys "Example Tab") title
        (.str (pys "scatter")) rest := by
    rw [load_tabDoc_reduce, tabPayloadStage_select _ _ _ _ _ _ _ h0', if_pos (by decide)]
  refine ⟨e0, e0.trans e0'.symm, ?_⟩
  rw [load_tabDoc_reduce, tabPayloadStage_select _ _ _ _ _ _ _ hb,
    if_neg (by decide), if_pos (by decide)]

theorem load_data_from_tab_scatter_excludes_first_witness :
    (load_data_from_tab (tabDoc (mkChartPayload (pys "T")
        [.obj [(pys "type", .str (pys "scatter"))],
         .obj [(pys "name", .str (pys "A")), (pys "x", .arr [.num 1]),
               (pys "y", .arr [.num 2])]])) (some (pys "tab1")) =
      seriesStage (some (pys "tab1")) (pys "4.1") (pys "Example Tab") (pys "T")
        (.str (pys "scatter"))
        [.obj [(pys "name", .str (pys "A")), (pys "x", .arr [.num 1]),
               (pys "y", .arr [.num 2])]]) ∧
    (load_data_from_tab (tabDoc (mkChartPayload (pys "T")
        [.obj [(pys "type", .str (pys "scatter"))],
         .obj [(pys "name", .str (pys "A")), (pys "x", .arr [.num 1]),
               (pys "y", .arr [.num 2])]])) (some (pys "tab1")) =
      load_data_from_tab (tabDoc (mkChartPayload (pys "T")
        [.obj [(pys "type", .str (pys "scatter")), (pys "name", .str (pys "ignored"))],
         .obj [(pys "name", .str (pys "A")), (pys "x", .arr [.num 1]),
               (pys "y", .arr [.num 2])]])) (some (pys "tab1"))) ∧
    (load_data_from_tab (tabDoc (mkChartPayload (pys "T")
        [.obj [(pys "type", .str (pys "bar")), (pys "name", .str (pys "B")),
               (pys "x", .arr [.num 1]), (pys "y", .arr [.num 2])]])) (some (pys "tab1")) =
      seriesStage (some (pys "tab1")) (pys "4.1") (pys "Example Tab") (pys "T")
        (.str (pys "bar"))
        [.obj [(pys "type", .str (pys "bar")), (pys "name", .str (pys "B")),
               (pys "x", .arr [.num 1]), (pys "y", .arr [.num 2])]]) :=
  load_data_from_tab_scatter_excludes_first (pys "T")
    (.obj [(pys "type", .str (pys "scatter"))])
    (.obj [(pys "type", .str (pys "scatter")), (pys "name", .str (pys "ignored"))])
    (.obj [(pys "type", .str (pys "bar")), (pys "name", .str (pys "B")),
           (pys "x", .arr [.num 1]), (pys "y", .arr [.num 2])])
    [.obj [(pys "name", .str (pys "A")), (pys "x", .arr [.num 1]),
           (pys "y", .arr [.num 2])]] []
    (by rfl) (by rfl) (by rfl)

theorem splitChAux_eq (sep : Char) (s : Str) : ∀ acc : Str,
    splitChAux sep s acc =
      (acc.reverse ++ s.takeWhile (fun c => c ≠ sep)) ::
        (if sep ∈ s then splitChAux sep ((s.dropWhile (fun c => c ≠ sep)).drop 1) [] else []) := by
  induction s with
  | nil => intro acc; simp [splitChAux, List.takeWhile]
  | cons c cs ih =>
    intro acc
    by_cases hc : c = sep
    · subst hc
      rw [splitChAux]
      simp [List.takeWhile, List.dropWhile]
    · rw [splitChAux, if_neg hc, ih (c :: acc)]
      have ht : (c :: cs).takeWhile (fun x => decide (x ≠ sep)) =
          c :: cs.takeWhile (fun x => decide (x ≠ sep)) := by
        simp [List.takeWhile, hc]
      have hd : (c :: cs).dropWhile (fun x => decide (x ≠ sep)) =
          cs.dropWhile (fun x => decide (x ≠ sep)) := by
        simp [List.dropWhile, hc]
      have hm : (sep ∈ c :: cs) ↔ (sep ∈ cs) := by
        rw [List.mem_cons]
        constructor
        · rintro (h | h)
          · exact absurd h.symm hc
          · exact h
        · exact Or.inr
      simp only [ht, hd, List.reverse_cons, List.append_assoc, List.cons_append,
        List.nil_append, hm]

theorem splitCh_eq (sep : Char) (s : Str) :
    splitCh sep s =
      (s.takeWhile (fun c => c ≠ sep)) ::
        (if sep ∈ s then splitCh sep ((s.dropWhile (fun c => c ≠ sep)).drop 1) else []) := by
  rw [splitCh, splitChAux_eq]
  rfl

theorem splitCh_ne_nil (sep : Char) (s : Str) : splitCh sep s ≠ [] := by
  rw [splitCh_eq]
  exact List.cons_ne_nil _ _

theorem splitCh_length_gt_one (sep : Char) (s : Str) :
    1 < (splitCh sep s).length ↔ sep ∈ s := by
  rw [splitCh_eq]
  by_cases h : sep ∈ s
  · rw [if_pos h]
    simp only [List.length_cons, h, iff_true]
    have := splitCh_ne_nil sep ((s.dropWhile (fun c => c ≠ sep)).drop 1)
    have hpos : 0 < (splitCh sep ((s.dropWhile (fun c => c ≠ sep)).drop 1)).length :=
      List.length_pos.mpr this
    omega
  · rw [if_neg h]
    simp only [List.length_cons, List.length_nil]
    constructor
    · intro hlt
      omega
    · intro hmem
      exact absurd hmem h

theorem splitCh_get_one (sep : Char) (s : Str) (h : sep ∈ s) :
    (splitCh sep s).get? 1 =
      some (((s.dropWhile (fun c => c ≠ sep)).drop 1).takeWhile (fun c => c ≠ sep)) := by
  rw [splitCh_eq, if_pos h]
  show (splitCh sep ((s.dropWhile (fun c => c ≠ sep)).drop 1)).get? 0 = _
  rw [splitCh_eq]
  rfl

/-- C5 counterexample: for the title "A (B) C) D" the pipeline's plot name
is "C" (the text between the first and second closing paren of the segment
after the first opening paren), not "C) D" (all of the text after the first
closing parenthesis, trimmed) as the claim states: the two disagree on this
concrete payload, as the COSD_PLOT_NAME column of the produced table
shows. -/
theorem load_plot_name_counterexample :
    (load_data_from_tab (tabDoc (mkChartPayload (pys "A (B) C) D")
        [.obj [(pys "type", .str (pys "bar")), (pys "name", .str (pys "N")),
               (pys "x", .arr [.num 1]), (pys "y", .arr [.num 2])]]))
      (some (pys "tab1"))).map (fun df => df.getCol (pys "COSD_PLOT_NAME")) =
      .ok (some [Cell.j (.str (pys "C"))]) ∧
    specPlotNameAfterFirstClose (pys "A (B) C) D") = pys "C) D" ∧
    pys "C" ≠ pys "C) D" :=
  ⟨by rfl, by rfl, by decide⟩

/-- C5 amended: for a title with no opening parenthesis the plot name is the
whole title; for a title containing an opening parenthesis, the plot name is
computed from the segment strictly between the first opening paren and the
next opening paren (or the end): it is the text strictly between the first
and the second closing paren of that segment (to its end when there is no
second), trimmed of whitespace, and the extraction fails with an IndexError
when that segment contains no closing paren at all.  The plot name that
load_data_from_tab stamps on every record is exactly this value, as the
reduction of the template document shows. -/
theorem pyPlotName_spec (title : Str) :
    (('(' ∉ title) → pyPlotName title = .ok title) ∧
    (('(' ∈ title) →
      (if ')' ∈ ((title.dropWhile (fun c => c ≠ '(')).drop 1).takeWhile (fun c => c ≠ '(') then
        pyPlotName title = .ok (pyStrip
          ((((((title.dropWhile (fun c => c ≠ '(')).drop 1).takeWhile
            (fun c => c ≠ '(')).dropWhile (fun c => c ≠ ')')).drop 1).takeWhile
            (fun c => c ≠ ')')))
       else pyPlotName title = .error .indexError)) ∧
    (∀ data : List JVal,
      load_data_from_tab (tabDoc (mkChartPayload title data)) (some (pys "tab1")) =
        tabPayloadStage (some (pys "tab1")) (pys "4.1") (pys "Example Tab") title data) := by
  refine ⟨?_, ?_, fun data => load_tabDoc_reduce title data⟩
  · intro hno
    unfold pyPlotName
    rw [if_neg]
    intro hgt
    exact hno ((splitCh_length_gt_one '(' title).mp hgt)
  · intro hyes
    unfold pyPlotName
    rw [if_pos ((splitCh_length_gt_one '(' title).mpr hyes)]
    rw [splitCh_get_one '(' title hyes]
    simp only [exceptOfOption, except_bind_ok]
    by_cases hc : ')' ∈ ((title.dropWhile (fun c => c ≠ '(')).drop 1).takeWhile (fun c => c ≠ '(')
    · rw [if_pos hc, splitCh_get_one ')' _ hc]
      simp only [exceptOfOption, except_bind_ok]
    · rw [if_neg hc]
      have hnone : (splitCh ')' (((title.dropWhile (fun c => c ≠ '(')).drop 1).takeWhile
          (fun c => c ≠ '('))).get? 1 = none := by
        rw [List.get?_eq_none]
        have hle := (splitCh_length_gt_one ')' (((title.dropWhile (fun c => c ≠ '(')).drop 1).takeWhile
          (fun c => c ≠ '('))).not.mpr hc
        omega
      rw [hnone]
      simp only [exceptOfOption, except_bind_error]

theorem jArrLen_idVal (tid : Option Str) : jArrLen (idVal tid) = none := by
  cases tid <;> rfl

theorem jBroadcast_idVal (L : Nat) (tid : Option Str) :
    jBroadcast L (idVal tid) = List.replicate L (Cell.j (idVal tid)) := by
  cases tid <;> rfl

theorem jArrLen_nonarr {v : JVal} (h : ∀ l, v ≠ JVal.arr l) : jArrLen v = none := by
  cases v with
  | arr l => exact absurd rfl (h l)
  | null => rfl
  | boolean b => rfl
  | str s => rfl
  | num n => rfl
  | obj f => rfl

theorem jBroadcast_nonarr {v : JVal} (L : Nat) (h : ∀ l, v ≠ JVal.arr l) :
    jBroadcast L v = List.replicate L (Cell.j v) := by
  cases v with
  | arr l => exact absurd rfl (h l)
  | null => rfl
  | boolean b => rfl
  | str s => rfl
  | num n => rfl
  | obj f => rfl

theorem jArrLen_str (s : Str) : jArrLen (.str s) = none := rfl

theorem jArrLen_arr (l : List JVal) : jArrLen (.arr l) = some l.length := rfl

theorem jBroadcast_str (L : Nat) (s : Str) :
    jBroadcast L (.str s) = List.replicate L (Cell.j (.str s)) := rfl

theorem jBroadcast_arr (L : Nat) (l : List JVal) :
    jBroadcast L (.arr l) = l.map Cell.j := rfl

theorem plainStep_ok (tid : Option Str) (sn sna pn : Str) (acc : DF) {d : JVal}
    {i : SeriesInfo} (hs : SeriesShape d i) (hlen : i.2.1.length = i.2.2.length) :
    plainStep tid sn sna pn acc d =
      .ok (pdConcat acc ⟨plainCols tid sn sna pn [i]⟩) := by
  obtain ⟨hname, hnonarr, hx, hy⟩ := hs
  unfold plainStep
  rw [hname, except_bind_ok, hx, except_bind_ok, hy, except_bind_ok]
  unfold pdDataFrame
  simp only [List.filterMap_cons, List.filterMap_nil, jArrLen_idVal,
    jArrLen_str, jArrLen_arr, jArrLen_nonarr hnonarr]
  rw [hlen]
  simp only [List.all_cons, List.all_nil, decide_eq_true_eq, Bool.and_true, if_pos rfl,
    if_true]
  rw [except_bind_ok]
  congr 2
  simp only [List.map_cons, List.map_nil, jBroadcast_idVal, jBroadcast_str,
    jBroadcast_arr, jBroadcast_nonarr _ hnonarr, plainCols]
  simp [hlen]

theorem plainStep_err (tid : Option Str) (sn sna pn : Str) (acc : DF) {d : JVal}
    {i : SeriesInfo} (hs : SeriesShape d i) (hlen : i.2.1.length ≠ i.2.2.length) :
    plainStep tid sn sna pn acc d = .error .valueError := by
  obtain ⟨hname, hnonarr, hx, hy⟩ := hs
  unfold plainStep
  rw [hname, except_bind_ok, hx, except_bind_ok, hy, except_bind_ok]
  unfold pdDataFrame
  simp only [List.filterMap_cons, List.filterMap_nil, jArrLen_idVal,
    jArrLen_str, jArrLen_arr, jArrLen_nonarr hnonarr]
  rw [if_neg]
  · rfl
  · simp only [List.all_cons, List.all_nil, decide_eq_true_eq, Bool.and_true]
    intro hc
    exact hlen hc.symm

theorem pdConcat_emptyAcc (b : DF) : pdConcat ⟨[]⟩ b = b := by
  simp [pdConcat]

theorem pdConcat_plainCols (tid : Option Str) (sn sna pn : Str)
    (info0 : List SeriesInfo) (i : SeriesInfo) :
    pdConcat ⟨plainCols tid sn sna pn info0⟩ ⟨plainCols tid sn sna pn [i]⟩ =
      ⟨plainCols tid sn sna pn (info0 ++ [i])⟩ := by
  unfold pdConcat
  rw [if_neg (by simp [plainCols]), if_pos (by simp [DF.colNames, plainCols])]
  simp [plainCols, List.flatMap_append]

theorem plainFold_go (tid : Option Str) (sn sna pn : Str) :
    ∀ {entries : List JVal} {info : List SeriesInfo},
      List.Forall₂ SeriesShape entries info →
      (∀ i ∈ info, (i : SeriesInfo).2.1.length = i.2.2.length) →
      ∀ info0 : List SeriesInfo,
      List.foldlM (plainStep tid sn sna pn) (⟨plainCols tid sn sna pn info0⟩ : DF) entries =
        .ok ⟨plainCols tid sn sna pn (info0 ++ info)⟩ := by
  intro entries info hF
  induction hF with
  | nil =>
    intro _ info0
    simp [List.foldlM]
    rfl
  | @cons d i entries' info' h1 h2 ih =>
    intro hlen info0
    rw [List.foldlM_cons]
    rw [plainStep_ok tid sn sna pn _ h1 (hlen i (List.mem_cons_self i info'))]
    rw [except_bind_ok, pdConcat_plainCols]
    rw [ih (fun j hj => hlen j (List.mem_cons_of_mem i hj)) (info0 ++ [i])]
    rw [List.append_assoc]
    rfl

theorem plainSeriesFold_ok (tid : Option Str) (sn sna pn : Str) {d : JVal}
    {i : SeriesInfo} {entries : List JVal} {info : List SeriesInfo}
    (h0 : SeriesShape d i) (hF : List.Forall₂ SeriesShape entries info)
    (hlen : ∀ j ∈ i :: info, (j : SeriesInfo).2.1.length = j.2.2.length) :
    plainSeriesFold tid sn sna pn (d :: entries) =
      .ok ⟨plainCols tid sn sna pn (i :: info)⟩ := by
  unfold plainSeriesFold
  rw [List.foldlM_cons,
    plainStep_ok tid sn sna pn _ h0 (hlen i (List.mem_cons_self i info)),
    except_bind_ok, pdConcat_emptyAcc]
  rw [plainFold_go tid sn sna pn hF (fun j hj => hlen j (List.mem_cons_of_mem i hj)) [i]]
  rfl

theorem plainFold_err (tid : Option Str) (sn sna pn : Str) :
    ∀ {entries : List JVal} {info : List SeriesInfo},
      List.Forall₂ SeriesShape entries info →
      (∃ i ∈ info, (i : SeriesInfo).2.1.length ≠ i.2.2.length) →
      ∀ acc : DF, List.foldlM (plainStep tid sn sna pn) acc entries = .error .valueError := by
  intro entries info hF
  induction hF with
  | nil =>
    rintro ⟨i, hi, _⟩ _
    exact absurd hi (List.not_mem_nil i)
  | @cons d i entries' info' h1 h2 ih =>
    rintro ⟨j, hj, hjne⟩ acc
    rw [List.foldlM_cons]
    by_cases hd : i.2.1.length = i.2.2.length
    · rw [plainStep_ok tid sn sna pn _ h1 hd, except_bind_ok]
      apply ih
      rcases List.mem_cons.mp hj with rfl | hj'
      · exact absurd hd hjne
      · exact ⟨j, hj', hjne⟩
    · rw [plainStep_err tid sn sna pn _ h1 hd]
      rfl

/-- C3 counterexample: a bar payload whose first series entry lacks a
hovertemplate while its second carries one.  The code emits plain records
(deciding on the first retained entry only), yet the claim's condition --
every retained entry lacks a hovertemplate, or the type is not bar -- is
false here, so the claimed equivalence fails at this input. -/
theorem load_branch_counterexample :
    load_data_from_tab (tabDoc (mkChartPayload (pys "T")
        [.obj [(pys "type", .str (pys "bar")), (pys "name", .str (pys "A")),
               (pys "x", .arr [.str (pys "p")]), (pys "y", .arr [.num 1])],
         .obj [(pys "name", .str (pys "B")), (pys "x", .arr [.str (pys "q")]),
               (pys "y", .arr [.num 2]),
               (pys "hovertemplate", .str (pys "Numerator: 1<br>Denominator: 2<br>"))]]))
      (some (pys "tab1")) =
      .ok ⟨[(pys "COSD_SECTION_ID",
              [Cell.j (.str (pys "tab1")), Cell.j (.str (pys "tab1"))]),
            (pys "COSD_SECTION_NUM",
              [Cell.j (.str (pys "4.1")), Cell.j (.str (pys "4.1"))]),
            (pys "COSD_SECTION_NAME",
              [Cell.j (.str (pys "Example Tab")), Cell.j (.str (pys "Example Tab"))]),
            (pys "COSD_PLOT_NAME",
              [Cell.j (.str (pys "T")), Cell.j (.str (pys "T"))]),
            (pys "CATEGORY", [Cell.j (.str (pys "A")), Cell.j (.str (pys "B"))]),
            (pys "X", [Cell.j (.str (pys "p")), Cell.j (.str (pys "q"))]),
            (pys "Y", [Cell.j (.num 1), Cell.j (.num 2)])]⟩ ∧
    ¬ specPlainCond (.str (pys "bar"))
        [.obj [(pys "type", .str (pys "bar")), (pys "name", .str (pys "A")),
               (pys "x", .arr [.str (pys "p")]), (pys "y", .arr [.num 1])],
         .obj [(pys "name", .str (pys "B")), (pys "x", .arr [.str (pys "q")]),
               (pys "y", .arr [.num 2]),
               (pys "hovertemplate", .str (pys "Numerator: 1<br>Denominator: 2<br>"))]] := by
  constructor
  · rfl
  · intro h
    rcases h with h | h
    · exact (h (.obj [(pys "name", .str (pys "B")), (pys "x", .arr [.str (pys "q")]),
               (pys "y", .arr [.num 2]),
               (pys "hovertemplate", .str (pys "Numerator: 1<br>Denominator: 2<br>"))])
        (by simp)) (by rfl)
    · rw [show jEqStr (.str (pys "bar")) (pys "bar") = true from rfl] at h
      exact absurd h (by decide)

/-- C3 amended: the branching of load_data_from_tab consults only the FIRST
retained series entry.  For a bar-typed payload the numerator/denominator
extraction branch is taken exactly when the first retained entry carries a
hovertemplate key (later entries are not consulted for the decision); plain
records are emitted exactly when the first retained entry lacks the key or
the chart type is not bar (scatter payloads always emit plain records).
Plain records are one row per (category, x, y) triple with x and y
co-indexed; extraction fails with ValueError when some entry's x and y
arrays differ in length. -/
theorem load_branch_first_entry_decides (title plot : Str)
    (hplot : pyPlotName title = .ok plot) :
    (∀ (fields0 : List (Str × JVal)) (brest : List JVal),
      jGet (pys "type") (.obj fields0) = .ok (.str (pys "bar")) →
      load_data_from_tab (tabDoc (mkChartPayload title (.obj fields0 :: brest)))
          (some (pys "tab1")) =
        (if (jLookup (pys "hovertemplate") fields0).isSome then
          hoverSeriesFold (some (pys "tab1")) (pys "4.1") (pys "Example Tab") plot
            (.obj fields0 :: brest)
        else
          plainSeriesFold (some (pys "tab1")) (pys "4.1") (pys "Example Tab") plot
            (.obj fields0 :: brest))) ∧
    (∀ (d0 : JVal) (rfields : List (Str × JVal)) (rrest : List JVal),
      jGet (pys "type") d0 = .ok (.str (pys "scatter")) →
      load_data_from_tab (tabDoc (mkChartPayload title (d0 :: .obj rfields :: rrest)))
          (some (pys "tab1")) =
        plainSeriesFold (some (pys "tab1")) (pys "4.1") (pys "Example Tab") plot
          (.obj rfields :: rrest)) ∧
    (∀ (d : JVal) (entries : List JVal) (i : SeriesInfo) (info : List SeriesInfo),
      SeriesShape d i → List.Forall₂ SeriesShape entries info →
      ((∀ j ∈ i :: info, (j : SeriesInfo).2.1.length = j.2.2.length) →
        plainSeriesFold (some (pys "tab1")) (pys "4.1") (pys "Example Tab") plot
            (d :: entries) =
          .ok ⟨plainCols (some (pys "tab1")) (pys "4.1") (pys "Example Tab") plot
            (i :: info)⟩) ∧
      ((∃ j ∈ i :: info, (j : SeriesInfo).2.1.length ≠ j.2.2.length) →
        plainSeriesFold (some (pys "tab1")) (pys "4.1") (pys "Example Tab") plot
            (d :: entries) =
          .error .valueError)) := by
  refine ⟨?_, ?_, ?_⟩
  · intro fields0 brest hb
    rw [load_tabDoc_reduce, tabPayloadStage_select _ _ _ _ _ _ _ hb,
      if_neg (by decide), if_pos (by decide)]
    unfold seriesStage
    rw [hplot, except_bind_ok]
    simp only [List.get?_cons_zero, exceptOfOption, except_bind_ok]
    show (Except.ok ((jLookup (pys "hovertemplate") fields0).isSome) >>= _) = _
    rw [except_bind_ok]
    rw [show jEqStr (.str (pys "bar")) (pys "bar") = true from rfl, Bool.and_true]
  · intro d0 rfields rrest hs
    rw [load_tabDoc_reduce, tabPayloadStage_select _ _ _ _ _ _ _ hs, if_pos (by decide)]
    unfold seriesStage
    rw [hplot, except_bind_ok]
    simp only [List.get?_cons_zero, exceptOfOption, except_bind_ok]
    show (Except.ok ((jLookup (pys "hovertemplate") rfields).isSome) >>= _) = _
    rw [except_bind_ok]
    rw [show jEqStr (.str (pys "scatter")) (pys "bar") = false from rfl, Bool.and_false]
    simp
  · intro d entries i info h0 hF
    constructor
    · intro hlen
      exact plainSeriesFold_ok _ _ _ _ h0 hF hlen
    · intro hex
      unfold plainSeriesFold
      exact plainFold_err _ _ _ _ (List.Forall₂.cons h0 hF) hex _

theorem load_branch_first_entry_decides_witness :
    load_data_from_tab (tabDoc (mkChartPayload (pys "T")
        [.obj [(pys "type", .str (pys "bar")), (pys "name", .str (pys "A")),
               (pys "x", .arr [.num 1]), (pys "y", .arr [.num 2]),
               (pys "hovertemplate", .str (pys "Numerator: 1<br>Denominator: 2<br>"))]]))
      (some (pys "tab1")) =
      hoverSeriesFold (some (pys "tab1")) (pys "4.1") (pys "Example Tab") (pys "T")
        [.obj [(pys "type", .str (pys "bar")), (pys "name", .str (pys "A")),
               (pys "x", .arr [.num 1]), (pys "y", .arr [.num 2]),
               (pys "hovertemplate", .str (pys "Numerator: 1<br>Denominator: 2<br>"))]] := by
  have h := (load_branch_first_entry_decides (pys "T") (pys "T") (by rfl)).1
    [(pys "type", .str (pys "bar")), (pys "name", .str (pys "A")),
     (pys "x", .arr [.num 1]), (pys "y", .arr [.num 2]),
     (pys "hovertemplate", .str (pys "Numerator: 1<br>Denominator: 2<br>"))] [] (by rfl)
  rw [if_pos (by rfl)] at h
  exact h

theorem pyPlotName_spec_witness :
    pyPlotName (pys "No parens title") = .ok (pys "No parens title") ∧
    pyPlotName (pys "Plot (pct) of things") = .ok (pys "of things") := by
  constructor
  · exact (pyPlotName_spec (pys "No parens title")).1 (by decide)
  · have h := (pyPlotName_spec (pys "Plot (pct) of things")).2.1 (by decide)
    rw [if_pos (by decide)] at h
    exact h.trans (by rfl)

theorem selForest_nil (p : HNode → Bool) : selForest p .nil = [] := rfl

theorem selForest_cons (p : HNode → Bool) (n : HNode) (rest : HForest) :
    selForest p (.cons n rest) = selNode p n ++ selForest p rest := rfl

theorem selNode_mk (p : HNode → Bool) (t : String) (i c ty : Option Str)
    (pl : Option JVal) (tx : Str) (cs : HForest) :
    selNode p (.mk t i c ty pl tx cs) =
      (if p (.mk t i c ty pl tx cs) then [.mk t i c ty pl tx cs] else []) ++ selForest p cs := rfl

mutual
theorem selNode_eq_filter (p : HNode → Bool) (n : HNode) :
    selNode p n = (selNode (fun _ => true) n).filter p := by
  cases n with
  | mk t i c ty pl tx cs =>
    rw [selNode_mk, selNode_mk, selForest_eq_filter p cs]
    cases hp : p (.mk t i c ty pl tx cs) <;>
      simp [hp, List.filter_cons, List.filter_append]

theorem selForest_eq_filter (p : HNode → Bool) (f : HForest) :
    selForest p f = (selForest (fun _ => true) f).filter p := by
  cases f with
  | nil => rfl
  | cons n rest =>
    rw [selForest_cons, selForest_cons, selNode_eq_filter p n, selForest_eq_filter p rest,
      List.filter_append]
end

/-- C4 counterexample: querying the level-2 div p of a document whose
descendant div c has class "section level30" returns the id c although c's
level token is level30, not the exact token level3; and querying the
level-2 div p of a document whose descendant div d has class
"level3 section" -- whose level token is exactly level3 -- returns nothing,
because the attribute string does not begin with "section level3".  Both
refute the claim that exactly the nodes whose class level token is exactly
level3 are returned. -/
theorem get_file_child_div_names_counterexample :
    get_file_child_div_names levelTokenDoc (some (pys "p")) = .ok [some (pys "c")] ∧
    (pys "level3") ∉ splitCh ' ' (pys "section level30") ∧
    get_file_child_div_names levelTokenDoc2 (some (pys "p")) = .ok [] ∧
    (pys "level3") ∈ splitCh ' ' (pys "level3 section") :=
  ⟨by rfl, by decide, by rfl, by decide⟩

/-- C4 amended: get_file_child_div_names parses the queried node's level N
as the digit ending the first class token that starts with "level", then
returns, in document order, the ids of exactly those descendant divs whose
raw class attribute string starts with the literal prefix
"section level<N+1>" (a prefix match on the attribute, not an exact match
on the level token); it fails with IndexError when the queried node's class
has no token starting with "level", and with ValueError when the first such
token does not end in a digit. -/
theorem get_file_child_div_names_spec :
    (∀ (soup : HForest) (pq : Option Str) (pd : HNode) (cls tok : Str) (dc : Char),
      find_div soup pq = some pd →
      pd.classAttr = some cls →
      ((splitCh ' ' cls).filter (fun t => (pys "level").isPrefixOf t)).get? 0 = some tok →
      tok.getLast? = some dc →
      dc.isDigit = true →
      get_file_child_div_names soup pq =
        .ok (((selForest (fun _ => true) pd.children).filter
            (cssDivClassStart (pys "section level" ++
              natToStr (dc.toNat - Char.toNat '0' + 1)))).map HNode.idAttr)) ∧
    (∀ (soup : HForest) (pq : Option Str) (pd : HNode) (cls : Str),
      find_div soup pq = some pd →
      pd.classAttr = some cls →
      (splitCh ' ' cls).filter (fun t => (pys "level").isPrefixOf t) = [] →
      get_file_child_div_names soup pq = .error .indexError) := by
  constructor
  · intro soup pq pd cls tok dc hfind hcls htok hlast hdigit
    unfold get_file_child_div_names
    rw [hfind]
    simp only [exceptOfOption, except_bind_ok]
    rw [hcls]
    simp only [exceptOfOption, except_bind_ok]
    rw [htok]
    simp only [exceptOfOption, except_bind_ok]
    rw [hlast]
    simp only [exceptOfOption, except_bind_ok]
    rw [if_pos hdigit]
    rw [selForest_eq_filter]
  · intro soup pq pd cls hfind hcls hnone
    unfold get_file_child_div_names
    rw [hfind]
    simp only [exceptOfOption, except_bind_ok]
    rw [hcls]
    simp only [exceptOfOption, except_bind_ok]
    rw [hnone]
    rfl

theorem get_file_child_div_names_spec_witness :
    get_file_child_div_names levelTokenDoc (some (pys "p")) = .ok [some (pys "c")] := by
  have h := (get_file_child_div_names_spec).1 levelTokenDoc (some (pys "p"))
    (.mk "div" (some (pys "p")) (some (pys "section level2")) none none []
      (.cons (.mk "div" (some (pys "c")) (some (pys "section level30")) none none [] .nil)
      .nil))
    (pys "section level2") (pys "level2") '2' (by rfl) (by rfl) (by rfl) (by rfl) (by rfl)
  rw [h]
  rfl


set_option maxHeartbeats 2000000 in
theorem extract_ranking_reduce (n1 n2 n3 n4 : Str)
    (r11 r12 r13 r14 r21 r22 r23 r24 r31 r32 r33 r34 r41 r42 r43 r44 : JVal) :
    extract_overall_ranking_core
      (rankingDoc (rankingPayload n1 n2 n3 n4
        [.arr [r11, r12, r13, r14], .arr [r21, r22, r23, r24],
         .arr [r31, r32, r33, r34], .arr [r41, r42, r43, r44]])) =
    rankingTail (normalize_col n1) (normalize_col n2) (normalize_col n3) (normalize_col n4)
      [Cell.j r11, Cell.j r12, Cell.j r13, Cell.j r14]
      [Cell.j r21, Cell.j r22, Cell.j r23, Cell.j r24]
      [Cell.j r31, Cell.j r32, Cell.j r33, Cell.j r34]
      [Cell.j r41, Cell.j r42, Cell.j r43, Cell.j r44]
      (pys "a1_overall_ranking") (pys "A1") (pys "Overall Ranking") := rfl

/-- C6 counterexample: on a ranking payload with 5 column definitions (the
first a row-index column) and 4 data rows of 4 values, the produced table
indeed has 4 rows and starts with the three identity columns followed by
the 4 normalized data columns, but it carries a further trailing DATE_DATA
column, so its column list is not exhausted by the 3 + 4 columns the claim
enumerates. -/
theorem extract_overall_ranking_columns_counterexample :
    (extract_overall_ranking_data
      (rankingDoc (rankingPayload (pys "Trust") (pys "Rank") (pys "Score (%)") (pys "Total")
        [.arr [.num 1, .num 2, .num 3, .num 4],
         .arr [.num 5, .num 6, .num 7, .num 8],
         .arr [.num 9, .num 10, .num 11, .num 12],
         .arr [.num 13, .num 14, .num 15, .num 16]]))
      (pys "2023_04_ABC_Example Trust.html")).map DF.colNames =
      .ok [pys "COSD_SECTION_ID", pys "COSD_SECTION_NUM", pys "COSD_SECTION_NAME",
           pys "TRUST", pys "RANK", pys "SCORE_PER", pys "TOTAL", pys "DATE_DATA"] ∧
    (extract_overall_ranking_data
      (rankingDoc (rankingPayload (pys "Trust") (pys "Rank") (pys "Score (%)") (pys "Total")
        [.arr [.num 1, .num 2, .num 3, .num 4],
         .arr [.num 5, .num 6, .num 7, .num 8],
         .arr [.num 9, .num 10, .num 11, .num 12],
         .arr [.num 13, .num 14, .num 15, .num 16]]))
      (pys "2023_04_ABC_Example Trust.html")).map DF.nrows = .ok 4 ∧
    ([pys "COSD_SECTION_ID", pys "COSD_SECTION_NUM", pys "COSD_SECTION_NAME",
      pys "TRUST", pys "RANK", pys "SCORE_PER", pys "TOTAL", pys "DATE_DATA"] : List Str) ≠
    [pys "COSD_SECTION_ID", pys "COSD_SECTION_NUM", pys "COSD_SECTION_NAME",
     pys "TRUST", pys "RANK", pys "SCORE_PER", pys "TOTAL"] :=
  ⟨by rfl, by rfl, by decide⟩

theorem beq_false_of_not_mem_four {a w x y z : Str} (h : a ∉ ([w, x, y, z] : List Str)) :
    ((a == w) = false ∧ (a == x) = false) ∧ (a == y) = false ∧ (a == z) = false := by
  simp only [List.mem_cons, List.not_mem_nil, or_false, not_or] at h
  obtain ⟨hw, hx, hy, hz⟩ := h
  exact ⟨⟨beq_eq_false_iff_ne.mpr hw, beq_eq_false_iff_ne.mpr hx⟩,
    beq_eq_false_iff_ne.mpr hy, beq_eq_false_iff_ne.mpr hz⟩

theorem rankingTail_eq (m1 m2 m3 m4 : Str) (c1 c2 c3 c4 : List Cell) (L : Nat)
    (hL : c1.length = L) (sid snum sname : Str)
    (h1 : m1 ∉ ([pys "COSD_SECTION_ID", pys "COSD_SECTION_NUM",
        pys "COSD_SECTION_NAME", pys "DATE_DATA"] : List Str))
    (h2 : m2 ∉ ([pys "COSD_SECTION_ID", pys "COSD_SECTION_NUM",
        pys "COSD_SECTION_NAME", pys "DATE_DATA"] : List Str))
    (h3 : m3 ∉ ([pys "COSD_SECTION_ID", pys "COSD_SECTION_NUM",
        pys "COSD_SECTION_NAME", pys "DATE_DATA"] : List Str))
    (h4 : m4 ∉ ([pys "COSD_SECTION_ID", pys "COSD_SECTION_NUM",
        pys "COSD_SECTION_NAME", pys "DATE_DATA"] : List Str)) :
    rankingTail m1 m2 m3 m4 c1 c2 c3 c4 sid snum sname =
      .ok ⟨[(pys "COSD_SECTION_ID", List.replicate L (Cell.j (.str sid))),
            (pys "COSD_SECTION_NUM", List.replicate L (Cell.j (.str snum))),
            (pys "COSD_SECTION_NAME", List.replicate L (Cell.j (.str sname))),
            (m1, c1), (m2, c2), (m3, c3), (m4, c4)]⟩ := by
  obtain ⟨⟨f11, f12⟩, f13, f14⟩ := beq_false_of_not_mem_four h1
  obtain ⟨⟨f21, f22⟩, f23, f24⟩ := beq_false_of_not_mem_four h2
  obtain ⟨⟨f31, f32⟩, f33, f34⟩ := beq_false_of_not_mem_four h3
  obtain ⟨⟨f41, f42⟩, f43, f44⟩ := beq_false_of_not_mem_four h4
  have g1 : (pys "COSD_SECTION_ID" == pys "COSD_SECTION_NUM") = false := by decide
  have g2 : (pys "COSD_SECTION_ID" == pys "COSD_SECTION_NAME") = false := by decide
  have g3 : (pys "COSD_SECTION_NUM" == pys "COSD_SECTION_NAME") = false := by decide
  have g4 : (pys "COSD_SECTION_ID" == pys "COSD_SECTION_ID") = true := by decide
  have g5 : (pys "COSD_SECTION_NUM" == pys "COSD_SECTION_NUM") = true := by decide
  have g6 : (pys "COSD_SECTION_NAME" == pys "COSD_SECTION_NAME") = true := by decide
  have g7 : (pys "COSD_SECTION_ID" == pys "DATE_DATA") = false := by decide
  have g8 : (pys "COSD_SECTION_NUM" == pys "DATE_DATA") = false := by decide
  have g9 : (pys "COSD_SECTION_NAME" == pys "DATE_DATA") = false := by decide
  unfold rankingTail
  simp only [DF.setCol, DF.popCol, DF.insertCol, insertAt, DF.nrows,
    List.any_cons, List.any_nil, List.find?, List.eraseP,
    f11, f12, f13, f14, f21, f22, f23, f24, f31, f32, f33, f34, f41, f42, f43, f44,
    g1, g2, g3, g4, g5, g6, g7, g8, g9,
    Bool.or_false, Bool.false_or, Bool.or_self, Bool.false_eq_true, Bool.true_eq_false,
    if_false, if_true, cond_true, cond_false,
    List.head?_cons, hL, List.length_replicate,
    except_bind_ok, List.cons_append, List.nil_append, List.append_nil,
    Option.map_some', Option.getD_some]

/-- C6 amended: for every ranking payload with 5 column-definition objects
(the first a row-index column) and a 4 x 4 row-major data array, provided
none of the normalized data-column names collides with a reserved column
name (COSD_SECTION_ID, COSD_SECTION_NUM, COSD_SECTION_NAME, DATE_DATA),
extract_overall_ranking_data produces a table with exactly 4 rows whose
first three columns are COSD_SECTION_ID (the section id with hyphens
replaced by underscores), COSD_SECTION_NUM and COSD_SECTION_NAME in that
order, followed by exactly the 4 normalized data columns, followed by one
trailing DATE_DATA metadata column. -/
theorem extract_overall_ranking_shape (n1 n2 n3 n4 : Str)
    (r11 r12 r13 r14 r21 r22 r23 r24 r31 r32 r33 r34 r41 r42 r43 r44 : JVal)
    (h1 : normalize_col n1 ∉ ([pys "COSD_SECTION_ID", pys "COSD_SECTION_NUM",
        pys "COSD_SECTION_NAME", pys "DATE_DATA"] : List Str))
    (h2 : normalize_col n2 ∉ ([pys "COSD_SECTION_ID", pys "COSD_SECTION_NUM",
        pys "COSD_SECTION_NAME", pys "DATE_DATA"] : List Str))
    (h3 : normalize_col n3 ∉ ([pys "COSD_SECTION_ID", pys "COSD_SECTION_NUM",
        pys "COSD_SECTION_NAME", pys "DATE_DATA"] : List Str))
    (h4 : normalize_col n4 ∉ ([pys "COSD_SECTION_ID", pys "COSD_SECTION_NUM",
        pys "COSD_SECTION_NAME", pys "DATE_DATA"] : List Str)) :
    extract_overall_ranking_data
      (rankingDoc (rankingPayload n1 n2 n3 n4
        [.arr [r11, r12, r13, r14], .arr [r21, r22, r23, r24],
         .arr [r31, r32, r33, r34], .arr [r41, r42, r43, r44]]))
      (pys "2023_04_ABC_Example Trust.html") =
      .ok ⟨[(pys "COSD_SECTION_ID",
              List.replicate 4 (Cell.j (.str (pys "a1_overall_ranking")))),
            (pys "COSD_SECTION_NUM", List.replicate 4 (Cell.j (.str (pys "A1")))),
            (pys "COSD_SECTION_NAME", List.replicate 4 (Cell.j (.str (pys "Overall Ranking")))),
            (normalize_col n1, [Cell.j r11, Cell.j r12, Cell.j r13, Cell.j r14]),
            (normalize_col n2, [Cell.j r21, Cell.j r22, Cell.j r23, Cell.j r24]),
            (normalize_col n3, [Cell.j r31, Cell.j r32, Cell.j r33, Cell.j r34]),
            (normalize_col n4, [Cell.j r41, Cell.j r42, Cell.j r43, Cell.j r44]),
            (pys "DATE_DATA", List.replicate 4 (Cell.date ⟨2023, 4, 1⟩))]⟩ := by
  obtain ⟨⟨_, _⟩, _, f14⟩ := beq_false_of_not_mem_four h1
  obtain ⟨⟨_, _⟩, _, f24⟩ := beq_false_of_not_mem_four h2
  obtain ⟨⟨_, _⟩, _, f34⟩ := beq_false_of_not_mem_four h3
  obtain ⟨⟨_, _⟩, _, f44⟩ := beq_false_of_not_mem_four h4
  have g7 : (pys "COSD_SECTION_ID" == pys "DATE_DATA") = false := by decide
  have g8 : (pys "COSD_SECTION_NUM" == pys "DATE_DATA") = false := by decide
  have g9 : (pys "COSD_SECTION_NAME" == pys "DATE_DATA") = false := by decide
  unfold extract_overall_ranking_data
  rw [extract_ranking_reduce,
    rankingTail_eq _ _ _ _ _ _ _ _ 4 (by rfl) _ _ _ h1 h2 h3 h4, except_bind_ok,
    show file_name_metadata (pys "2023_04_ABC_Example Trust.html") =
      .ok (⟨2023, 4, 1⟩, pys "ABC", pys "Example Trust") from rfl, except_bind_ok]
  simp only [DF.setCol, List.any_cons, List.any_nil, f14, f24, f34, f44, g7, g8, g9,
    Bool.or_false, Bool.false_or, Bool.or_self, Bool.false_eq_true, if_false,
    DF.nrows, List.head?_cons, Option.map_some', Option.getD_some, List.length_replicate,
    List.cons_append, List.nil_append]

theorem extract_overall_ranking_shape_witness :
    extract_overall_ranking_data
      (rankingDoc (rankingPayload (pys "Trust") (pys "Rank") (pys "Score (%)") (pys "Total")
        [.arr [.num 1, .num 2, .num 3, .num 4],
         .arr [.num 5, .num 6, .num 7, .num 8],
         .arr [.num 9, .num 10, .num 11, .num 12],
         .arr [.num 13, .num 14, .num 15, .num 16]]))
      (pys "2023_04_ABC_Example Trust.html") =
      .ok ⟨[(pys "COSD_SECTION_ID",
              List.replicate 4 (Cell.j (.str (pys "a1_overall_ranking")))),
            (pys "COSD_SECTION_NUM", List.replicate 4 (Cell.j (.str (pys "A1")))),
            (pys "COSD_SECTION_NAME", List.replicate 4 (Cell.j (.str (pys "Overall Ranking")))),
            (normalize_col (pys "Trust"), [Cell.j (.num 1), Cell.j (.num 2), Cell.j (.num 3), Cell.j (.num 4)]),
            (normalize_col (pys "Rank"), [Cell.j (.num 5), Cell.j (.num 6), Cell.j (.num 7), Cell.j (.num 8)]),
            (normalize_col (pys "Score (%)"), [Cell.j (.num 9), Cell.j (.num 10), Cell.j (.num 11), Cell.j (.num 12)]),
            (normalize_col (pys "Total"), [Cell.j (.num 13), Cell.j (.num 14), Cell.j (.num 15), Cell.j (.num 16)]),
            (pys "DATE_DATA", List.replicate 4 (Cell.date ⟨2023, 4, 1⟩))]⟩ :=
  extract_overall_ranking_shape (pys "Trust") (pys "Rank") (pys "Score (%)") (pys "Total")
    (.num 1) (.num 2) (.num 3) (.num 4) (.num 5) (.num 6) (.num 7) (.num 8)
    (.num 9) (.num 10) (.num 11) (.num 12) (.num 13) (.num 14) (.num 15) (.num 16)
    (by decide) (by decide) (by decide) (by decide)

theorem find?_map_setCol_same (n : Str) (R : List Cell) :
    ∀ cols : List (Str × List Cell),
      (cols.map (fun c => if c.1 == n then (n, R) else c)).find? (fun c => c.1 == n) =
        if cols.any (fun c => c.1 == n) then some (n, R) else none
  | [] => rfl
  | c :: cs => by
    by_cases hc : c.1 == n
    · rw [List.map_cons, if_pos hc,
        @List.find?_cons_of_pos _ (fun c => c.1 == n) (n, R) _ (beq_self_eq_true n)]
      simp only [List.any_cons, hc, Bool.true_or, if_true]
    · rw [List.map_cons, if_neg hc,
        @List.find?_cons_of_neg _ (fun c => c.1 == n) c _ hc,
        find?_map_setCol_same n R cs]
      simp only [List.any_cons, Bool.eq_false_iff.mpr hc, Bool.false_or]

theorem find?_map_setCol_other (n m : Str) (R : List Cell) (hnm : (n == m) = false) :
    ∀ cols : List (Str × List Cell),
      (cols.map (fun c => if c.1 == n then (n, R) else c)).find? (fun c => c.1 == m) =
        cols.find? (fun c => c.1 == m)
  | [] => rfl
  | c :: cs => by
    by_cases hc : c.1 == n
    · have hcm : (c.1 == m) = false := by
        rw [show c.1 = n from by simpa using hc]
        exact hnm
      rw [List.map_cons, if_pos hc,
        @List.find?_cons_of_neg _ (fun c => c.1 == m) (n, R) _ (by simp [hnm]),
        @List.find?_cons_of_neg _ (fun c => c.1 == m) c _ (by simp [hcm]),
        find?_map_setCol_other n m R hnm cs]
    · rw [List.map_cons, if_neg hc]
      by_cases hm : c.1 == m
      · rw [@List.find?_cons_of_pos _ (fun c => c.1 == m) c _ hm,
          @List.find?_cons_of_pos _ (fun c => c.1 == m) c _ hm]
      · rw [@List.find?_cons_of_neg _ (fun c => c.1 == m) c _ hm,
          @List.find?_cons_of_neg _ (fun c => c.1 == m) c _ hm,
          find?_map_setCol_other n m R hnm cs]

theorem getCol_setCol_same (df : DF) (n : Str) (v : Cell) :
    (df.setCol n v).getCol n = some (List.replicate df.nrows v) := by
  unfold DF.setCol DF.getCol
  by_cases hany : df.cols.any (fun c => c.1 == n)
  · rw [if_pos hany]
    show ((df.cols.map (fun c => if c.1 == n then (n, List.replicate df.nrows v) else c)).find?
      (fun c => c.1 == n)).map (fun c => c.2) = _
    rw [find?_map_setCol_same, if_pos hany]
    rfl
  · rw [if_neg hany]
    show ((df.cols ++ [(n, List.replicate df.nrows v)]).find? (fun c => c.1 == n)).map
      (fun c => c.2) = _
    rw [List.find?_append]
    rw [show df.cols.find? (fun c => c.1 == n) = none from List.find?_eq_none.mpr
      (fun x hx hpx => hany (List.any_eq_true.mpr ⟨x, hx, hpx⟩))]
    rw [Option.none_or,
      @List.find?_cons_of_pos _ (fun c => c.1 == n) (n, List.replicate df.nrows v) _
        (beq_self_eq_true n)]
    rfl

theorem getCol_setCol_other (df : DF) (n m : Str) (v : Cell) (hnm : (n == m) = false) :
    (df.setCol n v).getCol m = df.getCol m := by
  unfold DF.setCol DF.getCol
  by_cases hany : df.cols.any (fun c => c.1 == n)
  · rw [if_pos hany]
    show ((df.cols.map (fun c => if c.1 == n then (n, List.replicate df.nrows v) else c)).find?
      (fun c => c.1 == m)).map (fun c => c.2) = _
    rw [find?_map_setCol_other n m _ hnm]
  · rw [if_neg hany]
    show ((df.cols ++ [(n, List.replicate df.nrows v)]).find? (fun c => c.1 == m)).map
      (fun c => c.2) = _
    rw [List.find?_append,
      @List.find?_cons_of_neg _ (fun c => c.1 == m) (n, List.replicate df.nrows v) _
        (by simp [hnm]),
      List.find?_nil, Option.or_none]

/-- C2 counterexample: on a concrete report document, the overall-ranking
table produced by extract_overall_ranking_data carries a DATE_DATA column,
but no ORG_CODE and no ORG_NAME column at all, so the three metadata values
are not applied uniformly to every output table as the claim states. -/
theorem ranking_metadata_counterexample :
    (extract_overall_ranking_data
      (rankingDoc (rankingPayload (pys "Trust") (pys "Rank") (pys "Score (%)") (pys "Total")
        [.arr [.num 1, .num 2, .num 3, .num 4],
         .arr [.num 5, .num 6, .num 7, .num 8],
         .arr [.num 9, .num 10, .num 11, .num 12],
         .arr [.num 13, .num 14, .num 15, .num 16]]))
      (pys "2023_04_ABC_Example Trust.html")).map
        (fun df => (df.getCol (pys "ORG_CODE"), df.getCol (pys "ORG_NAME"),
          df.getCol (pys "DATE_DATA"))) =
      .ok (none, none, some (List.replicate 4 (Cell.date ⟨2023, 4, 1⟩))) := by rfl

/-- C2 amended: the report metadata derived from the file name is applied
uniformly to every TAB table: whenever extract_all_tabs_data succeeds, every
produced frame carries constant DATE_DATA, ORG_CODE and ORG_NAME columns
holding exactly the date, org_code and org_name from file_name_metadata.
The overall-ranking table, by contrast, is stamped with DATE_DATA only --
whenever extract_overall_ranking_data succeeds its result carries the
constant DATE_DATA column, while no ORG_CODE or ORG_NAME column is added to
it (as the counterexample shows, they are absent unless the payload itself
contributes such columns). -/
theorem metadata_stamping_spec :
    (∀ (soup : HForest) (fn : Str) (l : List (Str × DF)),
      extract_all_tabs_data soup fn = .ok l →
      ∃ d oc onm, file_name_metadata fn = .ok (d, oc, onm) ∧
        ∀ kv ∈ l,
          (∃ k1, (kv : Str × DF).2.getCol (pys "DATE_DATA") =
            some (List.replicate k1 (Cell.date d))) ∧
          (∃ k2, kv.2.getCol (pys "ORG_CODE") =
            some (List.replicate k2 (Cell.j (.str oc)))) ∧
          (∃ k3, kv.2.getCol (pys "ORG_NAME") =
            some (List.replicate k3 (Cell.j (.str onm))))) ∧
    (∀ (soup : HForest) (fn : Str) (df : DF),
      extract_overall_ranking_data soup fn = .ok df →
      ∃ d oc onm, file_name_metadata fn = .ok (d, oc, onm) ∧
        ∃ k, df.getCol (pys "DATE_DATA") = some (List.replicate k (Cell.date d))) := by
  constructor
  · intro soup fn l h
    unfold extract_all_tabs_data at h
    cases hc : collect_tabs_data soup with
    | error e =>
      rw [hc, except_bind_error] at h
      exact Except.noConfusion h
    | ok raw =>
      rw [hc, except_bind_ok] at h
      cases hm : file_name_metadata fn with
      | error e =>
        rw [hm, except_bind_error] at h
        exact Except.noConfusion h
      | ok meta =>
        obtain ⟨d, oc, onm⟩ := meta
        rw [hm, except_bind_ok] at h
        injection h with h'
        refine ⟨d, oc, onm, rfl, ?_⟩
        intro kv hkv
        rw [← h'] at hkv
        unfold stampTabs at hkv
        rw [List.mem_map] at hkv
        obtain ⟨kv0, _, rfl⟩ := hkv
        refine ⟨⟨kv0.2.nrows, ?_⟩,
          ⟨(kv0.2.setCol (pys "DATE_DATA") (Cell.date d)).nrows, ?_⟩,
          ⟨((kv0.2.setCol (pys "DATE_DATA") (Cell.date d)).setCol (pys "ORG_CODE")
              (Cell.j (.str oc))).nrows, ?_⟩⟩
        · rw [getCol_setCol_other _ _ _ _ (by decide), getCol_setCol_other _ _ _ _ (by decide),
            getCol_setCol_same]
        · rw [getCol_setCol_other _ _ _ _ (by decide), getCol_setCol_same]
        · rw [getCol_setCol_same]
  · intro soup fn df h
    unfold extract_overall_ranking_data at h
    cases hc : extract_overall_ranking_core soup with
    | error e =>
      rw [hc, except_bind_error] at h
      exact Except.noConfusion h
    | ok core =>
      rw [hc, except_bind_ok] at h
      cases hm : file_name_metadata fn with
      | error e =>
        rw [hm, except_bind_error] at h
        exact Except.noConfusion h
      | ok meta =>
        obtain ⟨d, oc, onm⟩ := meta
        rw [hm, except_bind_ok] at h
        injection h with h'
        refine ⟨d, oc, onm, rfl, core.nrows, ?_⟩
        rw [← h', getCol_setCol_same]

theorem metadata_stamping_spec_witness :
    ∃ d oc onm, file_name_metadata (pys "2023_04_ABC_Example Trust.html") = .ok (d, oc, onm) ∧
      ∃ k, DF.getCol ⟨[(pys "COSD_SECTION_ID",
              List.replicate 4 (Cell.j (.str (pys "a1_overall_ranking")))),
            (pys "COSD_SECTION_NUM", List.replicate 4 (Cell.j (.str (pys "A1")))),
            (pys "COSD_SECTION_NAME", List.replicate 4 (Cell.j (.str (pys "Overall Ranking")))),
            (pys "TRUST", [Cell.j (.num 1), Cell.j (.num 2), Cell.j (.num 3), Cell.j (.num 4)]),
            (pys "RANK", [Cell.j (.num 5), Cell.j (.num 6), Cell.j (.num 7), Cell.j (.num 8)]),
            (pys "SCORE_PER", [Cell.j (.num 9), Cell.j (.num 10), Cell.j (.num 11), Cell.j (.num 12)]),
            (pys "TOTAL", [Cell.j (.num 13), Cell.j (.num 14), Cell.j (.num 15), Cell.j (.num 16)]),
            (pys "DATE_DATA", List.replicate 4 (Cell.date ⟨2023, 4, 1⟩))]⟩
          (pys "DATE_DATA") = some (List.replicate k (Cell.date d)) :=
  (metadata_stamping_spec).2
    (rankingDoc (rankingPayload (pys "Trust") (pys "Rank") (pys "Score (%)") (pys "Total")
      [.arr [.num 1, .num 2, .num 3, .num 4],
       .arr [.num 5, .num 6, .num 7, .num 8],
       .arr [.num 9, .num 10, .num 11, .num 12],
       .arr [.num 13, .num 14, .num 15, .num 16]]))
    (pys "2023_04_ABC_Example Trust.html")
    ⟨[(pys "COSD_SECTION_ID", List.replicate 4 (Cell.j (.str (pys "a1_overall_ranking")))),
      (pys "COSD_SECTION_NUM", List.replicate 4 (Cell.j (.str (pys "A1")))),
      (pys "COSD_SECTION_NAME", List.replicate 4 (Cell.j (.str (pys "Overall Ranking")))),
      (pys "TRUST", [Cell.j (.num 1), Cell.j (.num 2), Cell.j (.num 3), Cell.j (.num 4)]),
      (pys "RANK", [Cell.j (.num 5), Cell.j (.num 6), Cell.j (.num 7), Cell.j (.num 8)]),
      (pys "SCORE_PER", [Cell.j (.num 9), Cell.j (.num 10), Cell.j (.num 11), Cell.j (.num 12)]),
      (pys "TOTAL", [Cell.j (.num 13), Cell.j (.num 14), Cell.j (.num 15), Cell.j (.num 16)]),
      (pys "DATE_DATA", List.replicate 4 (Cell.date ⟨2023, 4, 1⟩))]⟩
    (by rfl)

/-- C1 counterexample: in a two-file batch whose first file fails to parse
(its document has no appendices div) while the second is well formed, the
extraction error aborts process_files entirely: no file of the batch is
processed, although processing the second file alone would succeed.  There
is no per-file handler in the loop, contrary to the claim. -/
theorem process_files_counterexample :
    process_files c1Env
        [pys "2023_04_BAD_Trust.html", pys "2023_04_ABC_Example Trust.html"] =
      ([], some .attributeError) ∧
    process_file c1Env (pys "2023_04_ABC_Example Trust.html") = .ok true ∧
    ((process_files c1Env
        [pys "2023_04_BAD_Trust.html", pys "2023_04_ABC_Example Trust.html"]).1.map
      Prod.fst) = [] :=
  ⟨by rfl, by rfl, by rfl⟩

/-- C1 amended: an exception raised while extracting one file is not caught
at the per-file boundary: it aborts the whole batch, and no remaining file
is processed.  When the per-file body instead completes with a boolean
processing flag (upload failures are signalled this way), the batch
continues with the remaining files and the flag only decides whether the
file is archived. -/
theorem process_files_abort_spec :
    (∀ (env : BatchEnv) (f : Str) (fs : List Str) (e : PyErr),
      process_file env f = .error e →
      process_files env (f :: fs) = ([], some e)) ∧
    (∀ (env : BatchEnv) (f : Str) (fs : List Str) (flag : Bool),
      process_file env f = .ok flag →
      process_files env (f :: fs) =
        ((f, flag && env.archive_dir) :: (process_files env fs).1,
         (process_files env fs).2)) := by
  constructor
  · intro env f fs e h
    have hstep : process_files env (f :: fs) = (match process_file env f with
      | .error e => ([], some e)
      | .ok fl => ((f, fl && env.archive_dir) :: (process_files env fs).1,
          (process_files env fs).2)) := rfl
    rw [hstep, h]
  · intro env f fs flag h
    have hstep : process_files env (f :: fs) = (match process_file env f with
      | .error e => ([], some e)
      | .ok fl => ((f, fl && env.archive_dir) :: (process_files env fs).1,
          (process_files env fs).2)) := rfl
    rw [hstep, h]

theorem process_files_abort_spec_witness :
    process_files c1Env
        [pys "2023_04_BAD_Trust.html", pys "2023_04_ABC_Example Trust.html"] =
      ([], some PyErr.attributeError) :=
  (process_files_abort_spec).1 c1Env (pys "2023_04_BAD_Trust.html")
    [pys "2023_04_ABC_Example Trust.html"] .attributeError (by rfl)
